import Mathlib

/-!
# Luma-1 Teensy firmware: bus map, key map, MIDI note map and local UI

A shallow embedding of the definitions of `TeensyCode/Luma1/*.h` together with
the properties the specification states about them.  Every `#define` keeps its
name and value; a table that the headers only lay out by position (the keys of a
keyboard row, the registers of the host map) is a list in source order.
-/

namespace Luma1

/-! ## LM_Z80Bus.h : Z-80 address space locations -/

/-- RAM shadow of the write-only D802 register (`#define D802_SHADOW 0xa016`). -/
def D802_SHADOW : Nat := 0xa016

/-- Pattern display, 2 BCD digits (`#define PATT_DISPLAY 0xd800`). -/
def PATT_DISPLAY : Nat := 0xd800
/-- Link display, 2 BCD digits (`#define LINK_DISPLAY 0xd801`). -/
def LINK_DISPLAY : Nat := 0xd801

/-- Register `0xd802`; the header says "bit 7 is active-low enable for D[2:0] to
drum generators". -/
def LED_SET_2 : Nat := 0xd802

def LED_STORE : Nat := 0x01
def LED_VERIFY : Nat := 0x02
def LED_LOAD : Nat := 0x04
def LED_PLAY_STOP : Nat := 0x08
def BEEP_OUT : Nat := 0x10
def CLOCK_OUT : Nat := 0x20
def TAPE_FSK_OUT : Nat := 0x40
def DRUM_DO_ENABLE : Nat := 0x80

def LED_A : Nat := 0x01
def LED_B : Nat := 0x02
def LED_C : Nat := 0x04

def INPUT_JACKS : Nat := 0xd803

def INP_TEMPO_CLK : Nat := 0x01
def INP_FOOTSWITCH : Nat := 0x02
def INP_REC_SAFE : Nat := 0x04
def INP_TAPE_FSK : Nat := 0x08
def INP_CLK_SW_4 : Nat := 0x10
def INP_CLK_SW_5 : Nat := 0x20
def INP_CLK_SW_6 : Nat := 0x40
def INP_CLK_SW_7 : Nat := 0x80

/-- Table to normalize voice numbers when they are displayed
(`uint8_t voice_num_map[10]`). -/
def voice_num_map : List Nat :=
  [0xf4, 0xf3, 0xf5, 0xf7, 0x10, 0xf9, 0xf2, 0xf1, 0xf6, 0xf8]

def STB_BASS : Nat := 0xd804
def STB_SNARE : Nat := 0xd805
def STB_HIHAT : Nat := 0xd806
def STB_CLAPS : Nat := 0xd807
def STB_CABASA : Nat := 0xd808
def STB_TAMB : Nat := 0xd809
def STB_TOMS : Nat := 0xd80a
def STB_CONGAS : Nat := 0xd80b
def STB_COWBELL : Nat := 0xd80c
def STB_CLAVE : Nat := 0xd80d
def STB_CLICK : Nat := 0xd80e

def LED_SET_1 : Nat := 0xd80f

/-- Low 3 bits select which shuffle % LED to illuminate. -/
def SHUFFLE_MASK : Nat := 0x07
def SHUFFLE_SHIFT : Nat := 0

/-- These 3 bits select which quantization LED to illuminate. -/
def QUANTIZE_MASK : Nat := 0x38
def QUANTIZE_SHIFT : Nat := 3

/-- The two display digit registers, in header order. -/
def display_registers : List Nat := [PATT_DISPLAY, LINK_DISPLAY]

/-- The two LED/control registers, in header order. -/
def led_registers : List Nat := [LED_SET_2, LED_SET_1]

/-- The ten drum strobes, in header order (`STB_BASS` .. `STB_CLAVE`). -/
def drum_strobes : List Nat :=
  [STB_BASS, STB_SNARE, STB_HIHAT, STB_CLAPS, STB_CABASA,
   STB_TAMB, STB_TOMS, STB_CONGAS, STB_COWBELL, STB_CLAVE]

/-- Every register of the fixed host map of LM_Z80Bus.h: display digits,
LED/control registers, input jacks, drum strobes, click strobe. -/
def host_register_map : List Nat :=
  display_registers ++ led_registers ++ [INPUT_JACKS] ++ drum_strobes ++ [STB_CLICK]

/-- A named bit field together with the register under whose `#define` the
header lists it. -/
structure RegField where
  reg : Nat
  mask : Nat
deriving DecidableEq, Repr

/-- `DRUM_DO_ENABLE 0x80` is the last flag listed under `LED_SET_2 0xd802`,
whose comment names bit 7 as the drum-generator enable. -/
def DRUM_DO_ENABLE_field : RegField := ⟨LED_SET_2, DRUM_DO_ENABLE⟩

/-- `SHUFFLE_MASK 0x07` is listed under `LED_SET_1 0xd80f`. -/
def SHUFFLE_field : RegField := ⟨LED_SET_1, SHUFFLE_MASK⟩

/-- `QUANTIZE_MASK 0x38` is listed under `LED_SET_1 0xd80f`. -/
def QUANTIZE_field : RegField := ⟨LED_SET_1, QUANTIZE_MASK⟩

/-- The bit positions (0 = least significant) set in a byte-sized mask. -/
def mask_bits (m : Nat) : List Nat :=
  (List.range 8).filter (fun i => m.testBit i)

/-! ## LM_Z80Keys.h : keyboard rows and keycodes -/

def KB_ROW_1 : Nat := 0xdc01
def KEY_NUM_7 : Nat := 0x07
def KEY_NUM_6 : Nat := 0x06
def KEY_NUM_5 : Nat := 0x05
def KEY_NUM_4 : Nat := 0x04
def KEY_NUM_3 : Nat := 0x03
def KEY_NUM_2 : Nat := 0x02
def KEY_NUM_1 : Nat := 0x01
def KEY_NUM_0 : Nat := 0x00

def KB_ROW_2 : Nat := 0xdc02
def KEY_ADJ_SHUFL : Nat := 0x0f
def KEY_AUTO_CORR : Nat := 0x0e
def KEY_LENGTH : Nat := 0x0d
def KEY_ERASE : Nat := 0x0c
def KEY_COPY : Nat := 0x0b
def KEY_REC : Nat := 0x0a
def KEY_NUM_9 : Nat := 0x09
def KEY_NUM_8 : Nat := 0x08

def KB_ROW_3 : Nat := 0xdc04
def KEY_PLAY_STOP : Nat := 0x17
def KEY_DEL : Nat := 0x16
def KEY_INS : Nat := 0x15
def KEY_LAST_ENTRY : Nat := 0x14
def KEY_R_ARROW : Nat := 0x13
def KEY_L_ARROW : Nat := 0x12
def KEY_CHAIN_NUM : Nat := 0x11
def KEY_CHAIN_ON_OFF : Nat := 0x10

def KB_ROW_4 : Nat := 0xdc08
def KEY_DRM_TOM_UP : Nat := 0x1f
def KEY_DRM_TOM_DN : Nat := 0x1e
def KEY_DRM_CONGA_UP : Nat := 0x1d
def KEY_DRM_CONGA_DN : Nat := 0x1c
def KEY_LOAD : Nat := 0x1b
def KEY_VERIFY : Nat := 0x1a
/-- SAVE/STORE key, repurposed for MENU on Luma-1 (`KEY_SAVE` is commented out). -/
def KEY_MENU : Nat := 0x19
def KEY_TEMPO : Nat := 0x18

def KB_ROW_5 : Nat := 0xdc10
def KEY_DRM_HIHAT_OP : Nat := 0x27
def KEY_DRM_COWBELL : Nat := 0x26
def KEY_DRM_HIHAT_LO : Nat := 0x25
def KEY_DRM_HIHAT_HI : Nat := 0x24
def KEY_DRM_BASS_LO : Nat := 0x23
def KEY_DRM_BASS_HI : Nat := 0x22
def KEY_DRM_SNARE_LO : Nat := 0x21
def KEY_DRM_SNARE_HI : Nat := 0x20

def KB_ROW_6 : Nat := 0xdc20
def KEY_UNUSED_2F : Nat := 0x2f
def KEY_UNUSED_2E : Nat := 0x2e
def KEY_DRM_CABASA_LO : Nat := 0x2d
def KEY_DRM_CABASA_HI : Nat := 0x2c
def KEY_DRM_TAMB_LO : Nat := 0x2b
def KEY_DRM_TAMB_HI : Nat := 0x2a
def KEY_DRM_CLAPS : Nat := 0x29
def KEY_DRM_CLAVE : Nat := 0x28

/-- The six keyboard row-select addresses, `KB_ROW_1` .. `KB_ROW_6`. -/
def kb_row_selects : List Nat :=
  [KB_ROW_1, KB_ROW_2, KB_ROW_3, KB_ROW_4, KB_ROW_5, KB_ROW_6]

/-- The keycodes the header lists under "Row r's bitmap", in header order;
rows are numbered 1..6 as in `KB_ROW_r`. -/
def kb_row_keys : Nat → List Nat
  | 1 => [KEY_NUM_7, KEY_NUM_6, KEY_NUM_5, KEY_NUM_4,
          KEY_NUM_3, KEY_NUM_2, KEY_NUM_1, KEY_NUM_0]
  | 2 => [KEY_ADJ_SHUFL, KEY_AUTO_CORR, KEY_LENGTH, KEY_ERASE,
          KEY_COPY, KEY_REC, KEY_NUM_9, KEY_NUM_8]
  | 3 => [KEY_PLAY_STOP, KEY_DEL, KEY_INS, KEY_LAST_ENTRY,
          KEY_R_ARROW, KEY_L_ARROW, KEY_CHAIN_NUM, KEY_CHAIN_ON_OFF]
  | 4 => [KEY_DRM_TOM_UP, KEY_DRM_TOM_DN, KEY_DRM_CONGA_UP, KEY_DRM_CONGA_DN,
          KEY_LOAD, KEY_VERIFY, KEY_MENU, KEY_TEMPO]
  | 5 => [KEY_DRM_HIHAT_OP, KEY_DRM_COWBELL, KEY_DRM_HIHAT_LO, KEY_DRM_HIHAT_HI,
          KEY_DRM_BASS_LO, KEY_DRM_BASS_HI, KEY_DRM_SNARE_LO, KEY_DRM_SNARE_HI]
  | 6 => [KEY_UNUSED_2F, KEY_UNUSED_2E, KEY_DRM_CABASA_LO, KEY_DRM_CABASA_HI,
          KEY_DRM_TAMB_LO, KEY_DRM_TAMB_HI, KEY_DRM_CLAPS, KEY_DRM_CLAVE]
  | _ => []

/-- Every keycode the header defines, row 1 first. -/
def all_keycodes : List Nat :=
  kb_row_keys 1 ++ kb_row_keys 2 ++ kb_row_keys 3 ++
  kb_row_keys 4 ++ kb_row_keys 5 ++ kb_row_keys 6

/-! ## LM_MIDI.h : note numbers, drum selectors, clock constants -/

def MIDI_NOTE_BASS : Nat := 36
def MIDI_NOTE_SNARE : Nat := 37
def MIDI_NOTE_HIHAT : Nat := 38
def MIDI_NOTE_HIHAT_OPEN : Nat := 39
def MIDI_NOTE_CLAPS : Nat := 40
def MIDI_NOTE_CABASA : Nat := 41
def MIDI_NOTE_TAMB : Nat := 42
def MIDI_NOTE_TOM_UP : Nat := 43
def MIDI_NOTE_TOM_DN : Nat := 44
def MIDI_NOTE_CONGA_UP : Nat := 45
def MIDI_NOTE_CONGA_DN : Nat := 46
def MIDI_NOTE_COWBELL : Nat := 47
def MIDI_NOTE_CLAVE : Nat := 48

/-- The thirteen `MIDI_NOTE_*` values in header order. -/
def midi_drum_notes : List Nat :=
  [MIDI_NOTE_BASS, MIDI_NOTE_SNARE, MIDI_NOTE_HIHAT, MIDI_NOTE_HIHAT_OPEN,
   MIDI_NOTE_CLAPS, MIDI_NOTE_CABASA, MIDI_NOTE_TAMB, MIDI_NOTE_TOM_UP,
   MIDI_NOTE_TOM_DN, MIDI_NOTE_CONGA_UP, MIDI_NOTE_CONGA_DN, MIDI_NOTE_COWBELL,
   MIDI_NOTE_CLAVE]

def DRUM_SEL_BASS : Nat := 0
def DRUM_SEL_SNARE : Nat := 1
def DRUM_SEL_HIHAT : Nat := 2
def DRUM_SEL_CLAPS : Nat := 3
def DRUM_SEL_CABASA : Nat := 4
def DRUM_SEL_TAMB : Nat := 5
def DRUM_SEL_TOM : Nat := 6
def DRUM_SEL_CONGA : Nat := 7
def DRUM_SEL_COWBELL : Nat := 8
def DRUM_SEL_CLAVE : Nat := 9

/-- The ten `DRUM_SEL_*` values in header order. -/
def drum_selectors : List Nat :=
  [DRUM_SEL_BASS, DRUM_SEL_SNARE, DRUM_SEL_HIHAT, DRUM_SEL_CLAPS, DRUM_SEL_CABASA,
   DRUM_SEL_TAMB, DRUM_SEL_TOM, DRUM_SEL_CONGA, DRUM_SEL_COWBELL, DRUM_SEL_CLAVE]

/-! ## LM_Voices.h : sample-length classes -/

def SAMPLE_LEN_2K : Nat := 0x00
def SAMPLE_LEN_4K : Nat := 0x01
def SAMPLE_LEN_8K : Nat := 0x02
def SAMPLE_LEN_32K : Nat := 0x03

/-- The four `SAMPLE_LEN_*` codes in header order. -/
def sample_len_codes : List Nat :=
  [SAMPLE_LEN_2K, SAMPLE_LEN_4K, SAMPLE_LEN_8K, SAMPLE_LEN_32K]

/-- Modelled from the spec: the byte length of a size class (2K/4K/8K/32K), which
`set_sample_length` applies in a body the headers do not hold; the length is the
one each `SAMPLE_LEN_*` name spells, K being 1024 bytes.  No length for a value
that is not one of the four codes. -/
def sample_len_bytes (code : Nat) : Option Nat :=
  if code = SAMPLE_LEN_2K then some (2 * 1024)
  else if code = SAMPLE_LEN_4K then some (4 * 1024)
  else if code = SAMPLE_LEN_8K then some (8 * 1024)
  else if code = SAMPLE_LEN_32K then some (32 * 1024)
  else none

/-- Modelled from the spec: the inverse note table of the outbound path
(`play_midi_drm`, declared in LM_MIDI.h, body not in the headers): a received
note maps back to the selector of its drum, hi-hat and hi-hat-open to the hi-hat
selector, tom up/down to the tom selector, conga up/down to the conga selector;
an unmapped note is dropped (`none`). -/
def midi_note_2_drum_sel (note : Nat) : Option Nat :=
  if note = MIDI_NOTE_BASS then some DRUM_SEL_BASS
  else if note = MIDI_NOTE_SNARE then some DRUM_SEL_SNARE
  else if note = MIDI_NOTE_HIHAT then some DRUM_SEL_HIHAT
  else if note = MIDI_NOTE_HIHAT_OPEN then some DRUM_SEL_HIHAT
  else if note = MIDI_NOTE_CLAPS then some DRUM_SEL_CLAPS
  else if note = MIDI_NOTE_CABASA then some DRUM_SEL_CABASA
  else if note = MIDI_NOTE_TAMB then some DRUM_SEL_TAMB
  else if note = MIDI_NOTE_TOM_UP then some DRUM_SEL_TOM
  else if note = MIDI_NOTE_TOM_DN then some DRUM_SEL_TOM
  else if note = MIDI_NOTE_CONGA_UP then some DRUM_SEL_CONGA
  else if note = MIDI_NOTE_CONGA_DN then some DRUM_SEL_CONGA
  else if note = MIDI_NOTE_COWBELL then some DRUM_SEL_COWBELL
  else if note = MIDI_NOTE_CLAVE then some DRUM_SEL_CLAVE
  else none

/-! ## LM_MIDI.h : tape-FSK clock watch -/

/-- The clock-work globals of LM_MIDI.h: `elapsedMillis sinceLastFSKClk`,
`bool song_is_started = false`, and the "no clk" warning the header attaches to
`MS_TO_NO_CLK`. -/
structure TempoSync where
  sinceLastFSKClk : Nat
  song_is_started : Bool
  no_clk : Bool
deriving DecidableEq, Repr

/-- Globals as the header initialises them. -/
def TempoSync.power_up : TempoSync :=
  { sinceLastFSKClk := 0, song_is_started := false, no_clk := false }

/-- Bus ownership as the firmware tracks it: `bool teensy_driving_bus` ("use
this to detect if bus is already owned by teensy") and the direction of the
Teensy address/data pins, outputs only while the Teensy owns the bus. -/
structure Z80Bus where
  teensy_driving_bus : Bool
  pins_are_outputs : Bool
deriving DecidableEq, Repr

/-- Power-up state: `bool teensy_driving_bus = false`, pins floating. -/
def Z80Bus.power_up : Z80Bus :=
  { teensy_driving_bus := false, pins_are_outputs := false }

/-- Modelled from the spec: `teensy_drives_z80_bus( bool drive )` (declared in
LM_Z80Bus.h, body not in the headers).  `drive = true` is acquire: rejected when
the Teensy already owns the bus (no recursive ownership), failing when the host
does not acknowledge within the timeout (`ack = false`), otherwise the pins
become outputs and the Teensy owns the bus.  `drive = false` is release: the
pins float and ownership returns to the host.  The result is the new state and
whether the call succeeded. -/
def teensy_drives_z80_bus (bus : Z80Bus) (drive : Bool) (ack : Bool) : Z80Bus × Bool :=
  if drive then
    if bus.teensy_driving_bus then (bus, false)
    else if ack then ({ teensy_driving_bus := true, pins_are_outputs := true }, true)
    else (bus, false)
  else ({ teensy_driving_bus := false, pins_are_outputs := false }, true)

/-- One call of `teensy_drives_z80_bus`: the argument, and whether the host
acknowledges the bus request in time (read by an acquire only). -/
structure BusCall where
  drive : Bool
  ack : Bool
deriving DecidableEq, Repr

/-- The bus after a sequence of calls, first call first. -/
def bus_run (bus : Z80Bus) : List BusCall → Z80Bus
  | [] => bus
  | c :: cs => bus_run (teensy_drives_z80_bus bus c.drive c.ack).1 cs

/-- The outcome of every call of a sequence: (`drive`, succeeded). -/
def bus_trace (bus : Z80Bus) : List BusCall → List (Bool × Bool)
  | [] => []
  | c :: cs =>
    (c.drive, (teensy_drives_z80_bus bus c.drive c.ack).2) ::
      bus_trace (teensy_drives_z80_bus bus c.drive c.ack).1 cs

/-- Successful acquires of a trace not yet matched by a release, counted on the
outcomes alone: a successful acquire adds one, a failed one nothing, a release
matches one acquire when there is one.  `n` is the count so far. -/
def unmatched_acquires (n : Nat) : List (Bool × Bool) → Nat
  | [] => n
  | (true, true) :: rest => unmatched_acquires (n + 1) rest
  | (true, false) :: rest => unmatched_acquires n rest
  | (false, _) :: rest => unmatched_acquires (n - 1) rest

/-! ## LM_LUI.h : local UI -/

def LUI_INACTIVE : Nat := 0
def LUI_GET_CMD : Nat := 1
def LUI_GOT_CMD : Nat := 2
def LUI_GET_VAL : Nat := 3
def LUI_GOT_VAL : Nat := 4
def LUI_CMD_COMPLETE : Nat := 5

/-- Init value before a command has been entered. -/
def CMD_INVALID : Nat := 0xff

/-- What the command table says of a two-digit command number.  The table is
not in the headers; the local UI takes it as a parameter. -/
inductive CmdKind where
  /-- Not a command: the entry stays where it is, awaiting correction. -/
  | invalid
  /-- A command that requires no parameter. -/
  | immediate
  /-- A command that requires a parameter (bank number, drum selector). -/
  | takes_value
deriving DecidableEq, Repr

/-- The digit a keycode enters, for the ten digit keys `KEY_NUM_0..KEY_NUM_9`. -/
def key_digit (key : Nat) : Option Nat :=
  if key = KEY_NUM_0 then some 0
  else if key = KEY_NUM_1 then some 1
  else if key = KEY_NUM_2 then some 2
  else if key = KEY_NUM_3 then some 3
  else if key = KEY_NUM_4 then some 4
  else if key = KEY_NUM_5 then some 5
  else if key = KEY_NUM_6 then some 6
  else if key = KEY_NUM_7 then some 7
  else if key = KEY_NUM_8 then some 8
  else if key = KEY_NUM_9 then some 9
  else none

/-- Two digits read as BCD, tens digit first. -/
def bcd_value (d1 d2 : Nat) : Nat := 10 * d1 + d2

/-- Outcome of one key in the two-digit entry routine. -/
inductive EntryResult where
  /-- Entry goes on with these digits. -/
  | pending (digits : List Nat)
  /-- STORE was pressed: the routine returns FALSE. -/
  | cancelled
  /-- PLAY/STOP was pressed with two digits entered: the routine returns TRUE. -/
  | accepted (value : Nat)
deriving DecidableEq, Repr

/-- Modelled from the spec: the common routine of LM_LUI.h that gets 2 BCD
digits from the user (its doc comment is in the header, its body is not).
"Backspace is honored.  Pressing STORE again will cancel entry and return
FALSE.  Pressing PLAY/STOP will accept entry (if 2 digits have been entered) and
return TRUE."  A digit key appends while fewer than two digits are entered;
`digits` holds the digits entered so far, first one first. -/
def lui_get_2_digits (digits : List Nat) (key : Nat) : EntryResult :=
  if key = KEY_MENU then .cancelled
  else if key = KEY_PLAY_STOP then
    match digits with
    | [d1, d2] => .accepted (bcd_value d1 d2)
    | _ => .pending digits
  else if key = KEY_L_ARROW then .pending digits.dropLast
  else
    match key_digit key with
    | some d => if digits.length < 2 then .pending (digits ++ [d]) else .pending digits
    | none => .pending digits

/-- The local UI: its state (`LUI_*`), the digits of the entry in progress, the
command (`CMD_INVALID` before one is entered), the value of a value-taking
command, and the side effects dispatched so far as (command, value) pairs. -/
structure LocalUI where
  local_ui_state : Nat
  digits : List Nat
  cmd : Nat
  val : Option Nat
  executed : List (Nat × Option Nat)
deriving DecidableEq, Repr

/-- The local UI at power-up: not in Local UI mode, nothing executed. -/
def LocalUI.power_up : LocalUI :=
  { local_ui_state := LUI_INACTIVE, digits := [], cmd := CMD_INVALID, val := none,
    executed := [] }

/-- Leaving Local UI mode: back to `LUI_INACTIVE` with the entry dropped. -/
def LocalUI.leave (ui : LocalUI) : LocalUI :=
  { ui with local_ui_state := LUI_INACTIVE, digits := [], cmd := CMD_INVALID, val := none }

/-- Modelled from the spec: `handle_local_ui()` (declared in LM_LUI.h, body not
in the headers), one call with the key of this scan cycle, if any.
INACTIVE → GET_CMD on STORE.  GET_CMD → GOT_CMD when two digits have been
entered; STORE cancels to INACTIVE; the left arrow removes the last digit.
GOT_CMD, on PLAY/STOP → GET_VAL if the command requires a parameter, otherwise
CMD_COMPLETE; an invalid command stays in the current entry state.  GET_VAL →
GOT_VAL on two-digit entry, same backspace and cancel rules, cancel returning to
INACTIVE.  GOT_VAL → CMD_COMPLETE on PLAY/STOP.  CMD_COMPLETE executes the
command's side effect, then returns to INACTIVE. -/
def handle_local_ui (kind : Nat → CmdKind) (ui : LocalUI) (key : Option Nat) : LocalUI :=
  if ui.local_ui_state = LUI_CMD_COMPLETE then
    { ui.leave with executed := ui.executed ++ [(ui.cmd, ui.val)] }
  else
    match key with
    | none => ui
    | some k =>
      if ui.local_ui_state = LUI_INACTIVE then
        if k = KEY_MENU then
          { ui with local_ui_state := LUI_GET_CMD, digits := [], cmd := CMD_INVALID,
                    val := none }
        else ui
      else if ui.local_ui_state = LUI_GET_CMD ∨ ui.local_ui_state = LUI_GOT_CMD then
        match lui_get_2_digits ui.digits k with
        | .cancelled => ui.leave
        | .pending ds =>
          { ui with digits := ds,
                    local_ui_state := if ds.length = 2 then LUI_GOT_CMD else LUI_GET_CMD }
        | .accepted c =>
          match kind c with
          | .invalid => ui
          | .immediate => { ui with local_ui_state := LUI_CMD_COMPLETE, cmd := c, digits := [] }
          | .takes_value => { ui with local_ui_state := LUI_GET_VAL, cmd := c, digits := [] }
      else if ui.local_ui_state = LUI_GET_VAL ∨ ui.local_ui_state = LUI_GOT_VAL then
        match lui_get_2_digits ui.digits k with
        | .cancelled => ui.leave
        | .pending ds =>
          { ui with digits := ds,
                    local_ui_state := if ds.length = 2 then LUI_GOT_VAL else LUI_GET_VAL }
        | .accepted v => { ui with local_ui_state := LUI_CMD_COMPLETE, val := some v, digits := [] }
      else ui

/-- The local UI after a sequence of key presses, one handler call per key. -/
def lui_keys (kind : Nat → CmdKind) (ui : LocalUI) (keys : List Nat) : LocalUI :=
  keys.foldl (fun u k => handle_local_ui kind u (some k)) ui

/-- An entry state: after the opening STORE, before the entry is complete. -/
def lui_entry_state (st : Nat) : Prop :=
  st = LUI_GET_CMD ∨ st = LUI_GOT_CMD ∨ st = LUI_GET_VAL ∨ st = LUI_GOT_VAL

instance (st : Nat) : Decidable (lui_entry_state st) := by
  unfold lui_entry_state; infer_instance


/-- The drum-note mapping is a bijection between the thirteen notes and the ten
drum selectors: every note has a selector, no two notes share one, and every
selector is reached. -/
def drum_note_map_bijective : Prop :=
  (∀ n ∈ midi_drum_notes, ∃ s ∈ drum_selectors, midi_note_2_drum_sel n = some s) ∧
  (∀ a ∈ midi_drum_notes, ∀ b ∈ midi_drum_notes,
    midi_note_2_drum_sel a = midi_note_2_drum_sel b → a = b) ∧
  (∀ s ∈ drum_selectors, ∃ n ∈ midi_drum_notes, midi_note_2_drum_sel n = some s)

/-- The three fields sit in one and the same LED/control register. -/
def led_fields_share_register : Prop :=
  DRUM_DO_ENABLE_field.reg = QUANTIZE_field.reg ∧
  DRUM_DO_ENABLE_field.reg = SHUFFLE_field.reg

/-- The keycode of the digit key d: `KEY_NUM_d`. -/
def digit_key : Nat → Nat
  | 0 => KEY_NUM_0
  | 1 => KEY_NUM_1
  | 2 => KEY_NUM_2
  | 3 => KEY_NUM_3
  | 4 => KEY_NUM_4
  | 5 => KEY_NUM_5
  | 6 => KEY_NUM_6
  | 7 => KEY_NUM_7
  | 8 => KEY_NUM_8
  | _ => KEY_NUM_9

/-- A command table with one value-taking command, 12, every other number
being a command without parameter. -/
def cmd_table_12_takes_value (c : Nat) : CmdKind :=
  if c = 12 then .takes_value else .immediate

/-- A command table in which no command takes a parameter. -/
def cmd_table_all_immediate (_c : Nat) : CmdKind := .immediate

/-- The command table has a command that gathers a parameter: a two-digit
number it marks `takes_value`.  LM_LUI.h says of the local UI "Then some commands
with gather parameters (2-digit number, drum key)". -/
def has_value_command (kind : Nat → CmdKind) : Prop :=
  ∃ c, c < 100 ∧ kind c = .takes_value

/-- With this command table, from every `LUI_INACTIVE` state and for all decimal
digits d1 and d2, the keys STORE, d1, d2, PLAY/STOP end in `LUI_CMD_COMPLETE` with
the command the two digits spell. -/
def lui_two_digits_complete (kind : Nat → CmdKind) : Prop :=
  ∀ (ui : LocalUI) (d1 d2 : Nat), ui.local_ui_state = LUI_INACTIVE → d1 < 10 → d2 < 10 →
    (lui_keys kind ui
      [KEY_MENU, digit_key d1, digit_key d2, KEY_PLAY_STOP]).local_ui_state =
        LUI_CMD_COMPLETE ∧
    (lui_keys kind ui
      [KEY_MENU, digit_key d1, digit_key d2, KEY_PLAY_STOP]).cmd = bcd_value d1 d2

/-- The local UI is getting a command. -/
def lui_cmd_entry (st : Nat) : Prop := st = LUI_GET_CMD ∨ st = LUI_GOT_CMD

/-- The local UI is getting a value. -/
def lui_val_entry (st : Nat) : Prop := st = LUI_GET_VAL ∨ st = LUI_GOT_VAL

instance (st : Nat) : Decidable (lui_cmd_entry st) := by
  unfold lui_cmd_entry; infer_instance

instance (st : Nat) : Decidable (lui_val_entry st) := by
  unfold lui_val_entry; infer_instance

/-! ## LM_MIDI.h : MIDI interface routing -/

def ROUTE_NONE : Nat := 0x00
def ROUTE_DIN5 : Nat := 0x01
def ROUTE_USB : Nat := 0x02
def ROUTE_DIN5_USB : Nat := 0x03

/-- The four routing values in header order. -/
def route_values : List Nat := [ROUTE_NONE, ROUTE_DIN5, ROUTE_USB, ROUTE_DIN5_USB]

/-- The routing value of a set of transports: the OR of the bits of the
transports in it (`din5`: 5-pin DIN is in the set, `usb`: USB is). -/
def route_of (din5 usb : Bool) : Nat :=
  (if din5 then ROUTE_DIN5 else ROUTE_NONE) ||| (if usb then ROUTE_USB else ROUTE_NONE)

/-- The set of transports a routing value denotes: which of the two transport
bits it holds, as (DIN5, USB). -/
def route_transports (r : Nat) : Bool × Bool :=
  (r &&& ROUTE_DIN5 != 0, r &&& ROUTE_USB != 0)

/-! ## LM_EEPROM.h : parameter keys -/

def LM_EEPROM_FAN_MODE : Nat := 0
def LM_EEPROM_BOOT_SCREEN : Nat := 1
def LM_EEPROM_MIDI_CHANNEL : Nat := 2
def LM_EEPROM_MIDI_NO_OUT : Nat := 3
def LM_EEPROM_MIDI_NO_IN : Nat := 4
def LM_EEPROM_MIDI_CL_OUT : Nat := 5
def LM_EEPROM_MIDI_CL_IN : Nat := 6
def LM_EEPROM_MIDI_SYSEX : Nat := 7
def LM_EEPROM_MIDI_SOFT_THRU : Nat := 8
def LM_EEPROM_MIDI_START_HONOR : Nat := 9

def LM_EEPROM_SERIAL_NUM : Nat := 512
def SERIAL_NUM_LEN : Nat := 8

/-- Last byte of the general-purpose single-byte parameter storage; the header
comment gives "Bytes 0 - 511". -/
def eeprom_param_last : Nat := 511

/-- First byte of the serial number / user name / machine name storage; the
header comment gives "512 - 1023". -/
def eeprom_info_first : Nat := 512

/-- Last byte of the serial number / user name / machine name storage. -/
def eeprom_info_last : Nat := 1023

/-- The single-byte parameter keys in header order: fan mode, boot screen,
MIDI channel, note out, note in, clock out, clock in, sysex, soft thru,
start honor. -/
def eeprom_param_keys : List Nat :=
  [LM_EEPROM_FAN_MODE, LM_EEPROM_BOOT_SCREEN, LM_EEPROM_MIDI_CHANNEL,
   LM_EEPROM_MIDI_NO_OUT, LM_EEPROM_MIDI_NO_IN, LM_EEPROM_MIDI_CL_OUT,
   LM_EEPROM_MIDI_CL_IN, LM_EEPROM_MIDI_SYSEX, LM_EEPROM_MIDI_SOFT_THRU,
   LM_EEPROM_MIDI_START_HONOR]

/-- The EEPROM bytes of the serial number: `SERIAL_NUM_LEN` bytes from
`LM_EEPROM_SERIAL_NUM`. -/
def serial_num_bytes : List Nat := List.range' LM_EEPROM_SERIAL_NUM SERIAL_NUM_LEN

/-! ## LM_Voices.h : voice bank flags -/

def BANK_LOAD_CONGAS : Nat := 0x0001
def BANK_LOAD_TOMS : Nat := 0x0002
def BANK_LOAD_SNARE : Nat := 0x0004
def BANK_LOAD_BASS : Nat := 0x0008
def BANK_LOAD_HIHAT : Nat := 0x0010
def BANK_LOAD_COWBELL : Nat := 0x0020
def BANK_LOAD_CLAPS : Nat := 0x0040
def BANK_LOAD_CLAVE : Nat := 0x0080
def BANK_LOAD_TAMB : Nat := 0x0100
def BANK_LOAD_CABASA : Nat := 0x0200

def BANK_LOAD_ALL : Nat := 0x03ff

/-- Pass in for bank # to reference the STAGING bank. -/
def BANK_STAGING : Nat := 0xff

/-- The bank value of `send_sample_sysex`, `send_pattern_RAM_sysex` and the RAM
bank calls of LM_SDCard.h that stands for the currently active RAM ("banknum
00-99, or 0xff"). -/
def BANKNUM_CURRENT_RAM : Nat := 0xff

/-- A numbered bank: "banknum 00-99". -/
def is_bank_number (b : Nat) : Prop := b ≤ 99

instance (b : Nat) : Decidable (is_bank_number b) := by
  unfold is_bank_number; infer_instance

/-- The ten `BANK_LOAD_*` flags in header order. -/
def bank_load_flags : List Nat :=
  [BANK_LOAD_CONGAS, BANK_LOAD_TOMS, BANK_LOAD_SNARE, BANK_LOAD_BASS, BANK_LOAD_HIHAT,
   BANK_LOAD_COWBELL, BANK_LOAD_CLAPS, BANK_LOAD_CLAVE, BANK_LOAD_TAMB, BANK_LOAD_CABASA]

/-- The `BANK_LOAD_*` flag of each drum, in the order of the drum selectors
`DRUM_SEL_BASS` .. `DRUM_SEL_CLAVE`. -/
def bank_load_by_sel : List Nat :=
  [BANK_LOAD_BASS, BANK_LOAD_SNARE, BANK_LOAD_HIHAT, BANK_LOAD_CLAPS, BANK_LOAD_CABASA,
   BANK_LOAD_TAMB, BANK_LOAD_TOMS, BANK_LOAD_CONGAS, BANK_LOAD_COWBELL, BANK_LOAD_CLAVE]

/-- The voices a `voice_selects` bitmap selects: the flags it holds. -/
def selected_voices (voice_selects : Nat) : List Nat :=
  bank_load_flags.filter (fun f => voice_selects &&& f != 0)

/-- The bitmap that holds exactly the given flags: their bitwise OR. -/
def or_of_flags (flags : List Nat) : Nat := flags.foldl (fun a f => a ||| f) 0

/-- A bitmap within `BANK_LOAD_ALL`: no bit outside it. -/
def within_bank_load_all (voice_selects : Nat) : Prop :=
  voice_selects &&& BANK_LOAD_ALL = voice_selects

instance (v : Nat) : Decidable (within_bank_load_all v) := by
  unfold within_bank_load_all; infer_instance

/-! ## Voice numbers on the display -/

/-- The number a byte of `voice_num_map` shows on a two-digit BCD display: a
high nibble 0xF is a blank tens digit, otherwise the nibbles are two BCD
digits. -/
def voice_num_decode (b : Nat) : Nat :=
  if b / 16 = 0xf then b % 16 else 10 * (b / 16) + b % 16

/-- The voice number displayed for a drum selector 0..9 (0 past the table). -/
def voice_num_of_sel (drum_sel : Nat) : Nat :=
  voice_num_decode (voice_num_map.getD drum_sel 0)

/-- The voice number displayed for a drum strobe: the table is indexed by the
strobe address minus `STB_BASS`. -/
def voice_num_of_strobe (stb : Nat) : Nat := voice_num_of_sel (stb - STB_BASS)

/-! ## LM_MIDI.h : sysex drum selector to drum strobe -/

/-- Modelled from the spec: `drum_sel_2_voice( uint8_t drum_sel )` (declared in
LM_MIDI.h, "map sysex drum_sel to drum strobe"; body not in the headers): each
`DRUM_SEL_x` maps to the strobe `STB_x` of the same drum; a value that is no
drum selector maps to no strobe. -/
def drum_sel_2_voice (drum_sel : Nat) : Option Nat :=
  if drum_sel = DRUM_SEL_BASS then some STB_BASS
  else if drum_sel = DRUM_SEL_SNARE then some STB_SNARE
  else if drum_sel = DRUM_SEL_HIHAT then some STB_HIHAT
  else if drum_sel = DRUM_SEL_CLAPS then some STB_CLAPS
  else if drum_sel = DRUM_SEL_CABASA then some STB_CABASA
  else if drum_sel = DRUM_SEL_TAMB then some STB_TAMB
  else if drum_sel = DRUM_SEL_TOM then some STB_TOMS
  else if drum_sel = DRUM_SEL_CONGA then some STB_CONGAS
  else if drum_sel = DRUM_SEL_COWBELL then some STB_COWBELL
  else if drum_sel = DRUM_SEL_CLAVE then some STB_CLAVE
  else none

/-! ## Register bit fields -/

/-- The field of a register byte under a mask: `(v & MASK) >> SHIFT`. -/
def get_field (v mask shift : Nat) : Nat := (v &&& mask) >>> shift

/-- A register byte with the field under a mask replaced by `x`:
`(v & ~MASK) | ((x << SHIFT) & MASK)`, `~` taken within the byte. -/
def put_field (v mask shift x : Nat) : Nat :=
  (v &&& (0xff ^^^ mask)) ||| ((x <<< shift) &&& mask)

/-- The eight flags of `LED_SET_2`, in header order. -/
def led_set_2_flags : List Nat :=
  [LED_STORE, LED_VERIFY, LED_LOAD, LED_PLAY_STOP, BEEP_OUT, CLOCK_OUT, TAPE_FSK_OUT,
   DRUM_DO_ENABLE]

/-- The eight flags of `INPUT_JACKS`, in header order. -/
def input_jacks_flags : List Nat :=
  [INP_TEMPO_CLK, INP_FOOTSWITCH, INP_REC_SAFE, INP_TAPE_FSK, INP_CLK_SW_4, INP_CLK_SW_5,
   INP_CLK_SW_6, INP_CLK_SW_7]

/-- Setting a flag in a byte: `v | f`. -/
def set_flag (v f : Nat) : Nat := v ||| f

/-- Clearing a flag in a byte: `v & ~f`, `~` taken within the byte. -/
def clr_flag (v f : Nat) : Nat := v &&& (0xff ^^^ f)

/-- The bits of a byte other than those of a flag: `v & ~f`. -/
def other_bits (v f : Nat) : Nat := v &&& (0xff ^^^ f)

/-- Modelled from the spec: `set_LED_SET_2( uint8_t val )` (declared in
LM_Z80Bus.h, body not in the headers), on the register byte: the bits of `val`
are set, the other bits kept. -/
def set_LED_SET_2 (reg val : Nat) : Nat := set_flag reg val

/-- Modelled from the spec: `clr_LED_SET_2( uint8_t val )` (declared in
LM_Z80Bus.h, body not in the headers), on the register byte: the bits of `val`
are cleared, the other bits kept. -/
def clr_LED_SET_2 (reg val : Nat) : Nat := clr_flag reg val

/-- The ten digit keys, `KEY_NUM_0` .. `KEY_NUM_9`. -/
def digit_keys : List Nat :=
  [KEY_NUM_0, KEY_NUM_1, KEY_NUM_2, KEY_NUM_3, KEY_NUM_4,
   KEY_NUM_5, KEY_NUM_6, KEY_NUM_7, KEY_NUM_8, KEY_NUM_9]

/-! ## LM_PinMap.h : Z-80 bus address pins -/

def ADDR_0 : Nat := 33
def ADDR_1 : Nat := 34
def ADDR_2 : Nat := 35
def ADDR_3 : Nat := 36
def ADDR_4 : Nat := 32
def ADDR_5 : Nat := 31
def ADDR_6 : Nat := 39
def ADDR_7 : Nat := 9
def ADDR_8 : Nat := 8
def ADDR_9 : Nat := 7
def ADDR_10 : Nat := 14
def ADDR_11 : Nat := 4
def ADDR_12 : Nat := 20
def ADDR_13 : Nat := 2

/-- The Teensy pins of the Z-80 bus address bits, address bit 0 first; the
header defines `ADDR_0` .. `ADDR_13` and no further address bit. -/
def addr_pins : List Nat :=
  [ADDR_0, ADDR_1, ADDR_2, ADDR_3, ADDR_4, ADDR_5, ADDR_6,
   ADDR_7, ADDR_8, ADDR_9, ADDR_10, ADDR_11, ADDR_12, ADDR_13]

/-- An address reduced to the address lines that have pins: its low bits, one
per pin, the address mod 2^14. -/
def addr_on_pins (a : Nat) : Nat := a % 2 ^ addr_pins.length

/-- The level of every address pin for an address: (pin, bit), the pin of
address bit i carrying bit i of the address. -/
def addr_pin_levels (a : Nat) : List (Nat × Bool) :=
  addr_pins.enum.map (fun p => (p.2, a.testBit p.1))

/-- Every named bus address: the sixteen registers of the host map, the six
keyboard row selects, and the RAM shadow of the D802 register. -/
def named_bus_addresses : List Nat :=
  host_register_map ++ kb_row_selects ++ [D802_SHADOW]

/-! ## Properties -/

/-! ### Constant tables -/

/-- The notes of the `MIDI_NOTE_*` table are the numbers 36..48. -/
theorem mem_midi_drum_notes (n : Nat) : n ∈ midi_drum_notes ↔ 36 ≤ n ∧ n ≤ 48 := by
  have hlist : midi_drum_notes = List.range' 36 13 := by decide
  rw [hlist, List.mem_range'_1]
  omega

/-- Claim C6: the thirteen drum MIDI note numbers are exactly the contiguous
chromatic range 36..48, with no gap and no repeat, Bass = 36 up to
Clave/Rimshot = 48 in the order of the header. -/
theorem midi_drum_notes_contiguous :
    midi_drum_notes = List.range' 36 13 ∧
    midi_drum_notes.length = 13 ∧
    midi_drum_notes.Nodup ∧
    (∀ n : Nat, n ∈ midi_drum_notes ↔ 36 ≤ n ∧ n ≤ 48) ∧
    MIDI_NOTE_BASS = 36 ∧ MIDI_NOTE_SNARE = 37 ∧ MIDI_NOTE_HIHAT = 38 ∧
    MIDI_NOTE_HIHAT_OPEN = 39 ∧ MIDI_NOTE_CLAPS = 40 ∧ MIDI_NOTE_CABASA = 41 ∧
    MIDI_NOTE_TAMB = 42 ∧ MIDI_NOTE_TOM_UP = 43 ∧ MIDI_NOTE_TOM_DN = 44 ∧
    MIDI_NOTE_CONGA_UP = 45 ∧ MIDI_NOTE_CONGA_DN = 46 ∧ MIDI_NOTE_COWBELL = 47 ∧
    MIDI_NOTE_CLAVE = 48 := by
  have hlist : midi_drum_notes = List.range' 36 13 := by decide
  refine ⟨hlist, by decide, by decide, ?_, rfl, rfl, rfl, rfl, rfl, rfl, rfl, rfl, rfl,
    rfl, rfl, rfl, rfl⟩
  exact mem_midi_drum_notes

/-- Claim C7: the sample-length class codes are 2K = 0x00, 4K = 0x01, 8K = 0x02
and 32K = 0x03, pairwise distinct, each fitting in two bits, and increasing
strictly with the sample length 2048 < 4096 < 8192 < 32768 bytes. -/
theorem sample_len_codes_ordered :
    SAMPLE_LEN_2K = 0x00 ∧ SAMPLE_LEN_4K = 0x01 ∧ SAMPLE_LEN_8K = 0x02 ∧
    SAMPLE_LEN_32K = 0x03 ∧
    sample_len_codes.Nodup ∧
    (∀ c ∈ sample_len_codes, c < 2 ^ 2) ∧
    (∀ c : Nat, c < 2 ^ 2 → c ∈ sample_len_codes) ∧
    sample_len_codes.map sample_len_bytes = [some 2048, some 4096, some 8192, some 32768] ∧
    (∀ a ∈ sample_len_codes, ∀ b ∈ sample_len_codes,
      (a < b ↔ ∃ la lb, sample_len_bytes a = some la ∧ sample_len_bytes b = some lb ∧
        la < lb)) := by
  refine ⟨rfl, rfl, rfl, rfl, by decide, by decide, ?_, by decide, ?_⟩
  · intro c hc
    have h4 : c = 0 ∨ c = 1 ∨ c = 2 ∨ c = 3 := by omega
    rcases h4 with h | h | h | h <;> subst h <;> decide
  · intro a ha b hb
    simp only [sample_len_codes, SAMPLE_LEN_2K, SAMPLE_LEN_4K, SAMPLE_LEN_8K,
      SAMPLE_LEN_32K, List.mem_cons, List.mem_singleton, List.not_mem_nil, or_false] at ha hb
    rcases ha with h | h | h | h <;> rcases hb with h2 | h2 | h2 | h2 <;> subst h <;>
      subst h2 <;> simp [sample_len_bytes, SAMPLE_LEN_2K, SAMPLE_LEN_4K, SAMPLE_LEN_8K,
        SAMPLE_LEN_32K]

/-- The sample-length codes at two of the classes: 4K is below 32K as a code
because 4096 bytes is below 32768 bytes. -/
theorem sample_len_codes_ordered_witness :
    (SAMPLE_LEN_4K < SAMPLE_LEN_32K ↔
      ∃ la lb, sample_len_bytes SAMPLE_LEN_4K = some la ∧
        sample_len_bytes SAMPLE_LEN_32K = some lb ∧ la < lb) :=
  sample_len_codes_ordered.2.2.2.2.2.2.2.2 SAMPLE_LEN_4K (by decide) SAMPLE_LEN_32K (by decide)

/-- Claim C8: the keycodes of the six keyboard rows are pairwise distinct and
cover exactly 0x00..0x2f (48 keys), eight per row, and the keys of row r
(r = 1..6) are exactly the keycodes k with k / 8 = r - 1, listed in the header
from bit position 7 down to 0 as 8 * (r - 1) + bit. -/
theorem keycodes_by_row :
    all_keycodes.Nodup ∧
    all_keycodes.length = 48 ∧
    (∀ k : Nat, k ∈ all_keycodes ↔ k ≤ 0x2f) ∧
    (∀ r : Nat, 1 ≤ r → r ≤ 6 →
      (kb_row_keys r).length = 8 ∧
      (∀ k : Nat, k ∈ kb_row_keys r ↔ k / 8 = r - 1) ∧
      kb_row_keys r = [7, 6, 5, 4, 3, 2, 1, 0].map (fun bit => 8 * (r - 1) + bit)) := by
  have hcover : ∀ k : Nat, k < 48 → k ∈ all_keycodes := by decide
  have hbound : ∀ k ∈ all_keycodes, k < 48 := by decide
  refine ⟨by decide, by decide, ?_, ?_⟩
  · intro k
    constructor
    · intro hk
      have := hbound k hk
      omega
    · intro hk
      exact hcover k (by omega)
  · intro r h1 h6
    have hr : r = 1 ∨ r = 2 ∨ r = 3 ∨ r = 4 ∨ r = 5 ∨ r = 6 := by omega
    have hrow : ∀ q : Nat, q < 6 → ∀ k : Nat, k < 48 →
        (k ∈ kb_row_keys (q + 1) ↔ k / 8 = q) := by decide
    have hrowb : ∀ q : Nat, q < 6 → ∀ k ∈ kb_row_keys (q + 1), k < 48 := by decide
    refine ⟨?_, ?_, ?_⟩
    · rcases hr with h | h | h | h | h | h <;> subst h <;> rfl
    · intro k
      obtain ⟨q, rfl⟩ : ∃ q, r = q + 1 := ⟨r - 1, by omega⟩
      have hq : q < 6 := by omega
      simp only [Nat.add_sub_cancel]
      constructor
      · intro hk
        exact (hrow q hq k (hrowb q hq k hk)).1 hk
      · intro hk
        exact (hrow q hq k (by omega)).2 hk
    · rcases hr with h | h | h | h | h | h <;> subst h <;> decide

/-- Row 4 of the keyboard holds eight keys, those with keycode / 8 = 3, MENU
(0x19) among them. -/
theorem keycodes_by_row_witness :
    (kb_row_keys 4).length = 8 ∧
    (∀ k : Nat, k ∈ kb_row_keys 4 ↔ k / 8 = 4 - 1) ∧
    kb_row_keys 4 = [7, 6, 5, 4, 3, 2, 1, 0].map (fun bit => 8 * (4 - 1) + bit) :=
  keycodes_by_row.2.2.2 4 (by decide) (by decide)

/-- Claim C9: the fixed host register map is two display digit registers, two
LED/control registers, one input-jacks register, ten drum strobes and one click
strobe, at 16 pairwise distinct 16-bit addresses that fill 0xd800..0xd80f
exactly, the ten drum strobes contiguous at 0xd804..0xd80d; the six keyboard
row selects are 0xdc00 plus a one-hot bit 0x01..0x20, pairwise distinct and
outside that block. -/
theorem host_register_map_layout :
    display_registers.length = 2 ∧ led_registers.length = 2 ∧
    drum_strobes.length = 10 ∧
    host_register_map.length = 16 ∧
    host_register_map.Nodup ∧
    (∀ a ∈ host_register_map, a < 2 ^ 16) ∧
    (∀ a : Nat, a ∈ host_register_map ↔ 0xd800 ≤ a ∧ a ≤ 0xd80f) ∧
    drum_strobes = List.range' 0xd804 10 ∧
    INPUT_JACKS = 0xd803 ∧ STB_CLICK = 0xd80e ∧
    kb_row_selects = [0x01, 0x02, 0x04, 0x08, 0x10, 0x20].map (fun bit => 0xdc00 + bit) ∧
    kb_row_selects.length = 6 ∧
    kb_row_selects.Nodup ∧
    (∀ a ∈ kb_row_selects, a < 2 ^ 16 ∧ a ∉ host_register_map) := by
  have hperm : host_register_map.Perm (List.range' 0xd800 16) := by decide
  refine ⟨rfl, rfl, rfl, rfl, by decide, by decide, ?_, by decide, rfl, rfl, by decide,
    rfl, by decide, by decide⟩
  intro a
  rw [hperm.mem_iff, List.mem_range'_1]
  omega

/-- The first keyboard row select, 0xdc01, is a 16-bit address outside the
register block. -/
theorem host_register_map_layout_witness :
    KB_ROW_1 < 2 ^ 16 ∧ KB_ROW_1 ∉ host_register_map :=
  host_register_map_layout.2.2.2.2.2.2.2.2.2.2.2.2.2 KB_ROW_1 (by decide)

/-! ### LED/control register fields -/

/-- Claim C10, as stated, fails: the register that carries `DRUM_DO_ENABLE`
(`LED_SET_2`, 0xd802) is not the register that carries the quantization and
shuffle fields (`LED_SET_1`, 0xd80f). -/
theorem led_fields_in_two_registers : ¬ led_fields_share_register := by
  unfold led_fields_share_register
  decide

/-- Claim C10, amended: `DRUM_DO_ENABLE` is bit 7 of `LED_SET_2` (0xd802), while
`QUANTIZE_MASK` (bits 5..3) and `SHUFFLE_MASK` (bits 2..0) are two fields of one
register, `LED_SET_1` (0xd80f), a different address. -/
theorem led_fields_by_register :
    DRUM_DO_ENABLE_field.reg = LED_SET_2 ∧ LED_SET_2 = 0xd802 ∧
    mask_bits DRUM_DO_ENABLE_field.mask = [7] ∧
    QUANTIZE_field.reg = LED_SET_1 ∧ SHUFFLE_field.reg = LED_SET_1 ∧
    LED_SET_1 = 0xd80f ∧
    mask_bits QUANTIZE_field.mask = [3, 4, 5] ∧
    mask_bits SHUFFLE_field.mask = [0, 1, 2] ∧
    QUANTIZE_field.reg = SHUFFLE_field.reg ∧
    DRUM_DO_ENABLE_field.reg ≠ QUANTIZE_field.reg := by
  decide

/-! ### Drum-note mapping -/

/-- A note outside 36..48 has no drum selector. -/
theorem midi_note_2_drum_sel_outside (n : Nat) (h : n < 36 ∨ 48 < n) :
    midi_note_2_drum_sel n = none := by
  unfold midi_note_2_drum_sel
  simp only [MIDI_NOTE_BASS, MIDI_NOTE_SNARE, MIDI_NOTE_HIHAT, MIDI_NOTE_HIHAT_OPEN,
    MIDI_NOTE_CLAPS, MIDI_NOTE_CABASA, MIDI_NOTE_TAMB, MIDI_NOTE_TOM_UP, MIDI_NOTE_TOM_DN,
    MIDI_NOTE_CONGA_UP, MIDI_NOTE_CONGA_DN, MIDI_NOTE_COWBELL, MIDI_NOTE_CLAVE]
  repeat (first | rfl | (rw [if_neg (by omega)]))

/-- Claim C4, as stated, fails: the drum-note mapping is no bijection, since
hi-hat (38) and hi-hat open (39) share the hi-hat selector; indeed no map at all
is a bijection between the thirteen notes and the ten selectors. -/
theorem drum_note_map_not_bijective :
    ¬ drum_note_map_bijective ∧
    (38 ∈ midi_drum_notes ∧ 39 ∈ midi_drum_notes ∧
      midi_note_2_drum_sel 38 = midi_note_2_drum_sel 39) ∧
    ¬ ∃ f : Nat → Nat,
      Set.BijOn f {n | n ∈ midi_drum_notes} {s | s ∈ drum_selectors} := by
  refine ⟨?_, by decide, ?_⟩
  · intro h
    have := h.2.1 38 (by decide) 39 (by decide) (by decide)
    omega
  · rintro ⟨f, hf⟩
    have hcard := Finset.card_le_card_of_injOn (s := midi_drum_notes.toFinset)
      (t := drum_selectors.toFinset) f
      (fun a ha => by
        have := hf.mapsTo (List.mem_toFinset.mp ha)
        exact List.mem_toFinset.mpr this)
      (fun a ha b hb hab => hf.injOn (by simpa using ha) (by simpa using hb) hab)
    have h13 : midi_drum_notes.toFinset.card = 13 := by decide
    have h10 : drum_selectors.toFinset.card = 10 := by decide
    omega

/-- Claim C4, amended: the drum-note mapping is defined exactly on the notes
36..48, maps them onto the ten drum selectors, and two different notes share a
selector exactly when they are hi-hat/hi-hat open (38, 39), tom up/down (43, 44)
or conga up/down (45, 46); so it is a surjection of thirteen notes onto ten
selectors, injective apart from these three pairs. -/
theorem drum_note_map_onto :
    (∀ n : Nat, (∃ s, midi_note_2_drum_sel n = some s) ↔ n ∈ midi_drum_notes) ∧
    (∀ s : Nat, s ∈ drum_selectors ↔
      ∃ n ∈ midi_drum_notes, midi_note_2_drum_sel n = some s) ∧
    (∀ a ∈ midi_drum_notes, ∀ b ∈ midi_drum_notes, a < b →
      (midi_note_2_drum_sel a = midi_note_2_drum_sel b ↔
        (a = 38 ∧ b = 39) ∨ (a = 43 ∧ b = 44) ∨ (a = 45 ∧ b = 46))) ∧
    midi_drum_notes.length = 13 ∧
    ((midi_drum_notes.map midi_note_2_drum_sel).dedup.length = 10 ∧
      drum_selectors.Nodup ∧ drum_selectors.length = 10) := by
  have hin : ∀ n ∈ midi_drum_notes, ∃ s ∈ drum_selectors, midi_note_2_drum_sel n = some s := by
    decide
  refine ⟨?_, ?_, by decide, rfl, by decide, by decide, rfl⟩
  · intro n
    constructor
    · rintro ⟨s, hs⟩
      by_contra hn
      have hout : n < 36 ∨ 48 < n := by
        by_contra hc
        exact hn ((mem_midi_drum_notes n).2 (by omega))
      rw [midi_note_2_drum_sel_outside n hout] at hs
      exact Option.noConfusion hs
    · intro hn
      obtain ⟨s, _, hs⟩ := hin n hn
      exact ⟨s, hs⟩
  · intro s
    constructor
    · revert s
      decide
    · rintro ⟨n, hn, hs⟩
      obtain ⟨t, ht, hs2⟩ := hin n hn
      rw [hs] at hs2
      cases hs2
      exact ht

/-- Tom up (43) and tom down (44) share a selector, as the amended mapping
property says of that pair. -/
theorem drum_note_map_onto_witness :
    (midi_note_2_drum_sel 43 = midi_note_2_drum_sel 44 ↔
      (43 = 38 ∧ 44 = 39) ∨ (43 = 43 ∧ 44 = 44) ∨ (43 = 45 ∧ 44 = 46)) :=
  drum_note_map_onto.2.2.1 43 (by decide) 44 (by decide) (by decide)

/-! ### Tape-FSK clock watch -/

/-- Along any sequence of calls the count of unmatched successful acquires is 1
while the Teensy owns the bus and 0 while it does not. -/
theorem unmatched_acquires_run (calls : List BusCall) :
    ∀ (bus : Z80Bus) (n : Nat), n = (if bus.teensy_driving_bus then 1 else 0) →
      unmatched_acquires n (bus_trace bus calls) =
        if (bus_run bus calls).teensy_driving_bus then 1 else 0 := by
  induction calls with
  | nil => intro bus n h; simpa [bus_trace, bus_run, unmatched_acquires] using h
  | cons c cs ih =>
    intro bus n h
    obtain ⟨drive, ack⟩ := c
    obtain ⟨owned, pins⟩ := bus
    subst h
    cases drive <;> cases owned <;> cases ack <;>
      simp only [bus_trace, bus_run, teensy_drives_z80_bus, unmatched_acquires, if_true,
        if_false, Bool.false_eq_true, Nat.zero_add, Nat.sub_self, Nat.zero_sub] <;>
      exact ih _ _ rfl

/-- The address/data pins are outputs exactly while the Teensy owns the bus. -/
theorem pins_follow_ownership (calls : List BusCall) :
    ∀ bus : Z80Bus, bus.pins_are_outputs = bus.teensy_driving_bus →
      (bus_run bus calls).pins_are_outputs = (bus_run bus calls).teensy_driving_bus := by
  induction calls with
  | nil => intro bus h; exact h
  | cons c cs ih =>
    intro bus h
    obtain ⟨drive, ack⟩ := c
    obtain ⟨owned, pins⟩ := bus
    apply ih
    cases drive <;> cases owned <;> cases ack <;> simp_all [teensy_drives_z80_bus]

/-- Claim C1: from the power-up state, after every finite sequence of acquire
and release calls the Teensy owns the bus (teensy_driving_bus = true) if and
only if exactly one successful acquire is still unmatched by a release; and an
acquire issued while the Teensy already owns the bus fails and leaves the state
unchanged. -/
theorem bus_owned_iff_one_unmatched (calls : List BusCall) :
    ((bus_run Z80Bus.power_up calls).teensy_driving_bus = true ↔
      unmatched_acquires 0 (bus_trace Z80Bus.power_up calls) = 1) ∧
    (∀ ack : Bool, (bus_run Z80Bus.power_up calls).teensy_driving_bus = true →
      teensy_drives_z80_bus (bus_run Z80Bus.power_up calls) true ack =
        (bus_run Z80Bus.power_up calls, false)) ∧
    (bus_run Z80Bus.power_up calls).pins_are_outputs =
      (bus_run Z80Bus.power_up calls).teensy_driving_bus := by
  refine ⟨?_, ?_, pins_follow_ownership calls _ rfl⟩
  · rw [unmatched_acquires_run calls Z80Bus.power_up 0 rfl]
    cases (bus_run Z80Bus.power_up calls).teensy_driving_bus <;> simp
  · intro ack h
    simp [teensy_drives_z80_bus, h]

/-- Acquire, a rejected second acquire, release, acquire again: the Teensy owns
the bus with one unmatched acquire, and one more acquire fails without changing
the state. -/
theorem bus_owned_iff_one_unmatched_witness :
    (bus_run Z80Bus.power_up
      [⟨true, true⟩, ⟨true, true⟩, ⟨false, false⟩, ⟨true, true⟩]).teensy_driving_bus = true ∧
    unmatched_acquires 0 (bus_trace Z80Bus.power_up
      [⟨true, true⟩, ⟨true, true⟩, ⟨false, false⟩, ⟨true, true⟩]) = 1 ∧
    teensy_drives_z80_bus (bus_run Z80Bus.power_up
      [⟨true, true⟩, ⟨true, true⟩, ⟨false, false⟩, ⟨true, true⟩]) true true =
      (bus_run Z80Bus.power_up
        [⟨true, true⟩, ⟨true, true⟩, ⟨false, false⟩, ⟨true, true⟩], false) :=
  ⟨by decide,
   (bus_owned_iff_one_unmatched _).1.1 (by decide),
   (bus_owned_iff_one_unmatched _).2.1 true (by decide)⟩

/-! ### Local UI -/

/-- A digit key is none of the keys that control the entry, and enters its
digit. -/
theorem digit_key_spec (d : Nat) (h : d < 10) :
    digit_key d ≠ KEY_MENU ∧ digit_key d ≠ KEY_PLAY_STOP ∧ digit_key d ≠ KEY_L_ARROW ∧
    key_digit (digit_key d) = some d := by
  interval_cases d <;> decide

/-- A digit key appends its digit while fewer than two digits are entered. -/
theorem lui_get_2_digits_digit (ds : List Nat) (d : Nat) (h : d < 10) :
    lui_get_2_digits ds (digit_key d) =
      if ds.length < 2 then .pending (ds ++ [d]) else .pending ds := by
  obtain ⟨h1, h2, h3, h4⟩ := digit_key_spec d h
  simp only [lui_get_2_digits, if_neg h1, if_neg h2, if_neg h3, h4]

/-- STORE and two digit keys from an inactive local UI: it holds the two digits
in `LUI_GOT_CMD`, nothing more executed. -/
theorem lui_after_two_digits (kind : Nat → CmdKind) (ui : LocalUI) (d1 d2 : Nat)
    (hi : ui.local_ui_state = LUI_INACTIVE) (h1 : d1 < 10) (h2 : d2 < 10) :
    lui_keys kind ui [KEY_MENU, digit_key d1, digit_key d2] =
      { local_ui_state := LUI_GOT_CMD, digits := [d1, d2], cmd := CMD_INVALID, val := none,
        executed := ui.executed } := by
  simp [lui_keys, handle_local_ui, hi, lui_get_2_digits_digit _ _ h1,
    lui_get_2_digits_digit _ _ h2, LUI_INACTIVE, LUI_CMD_COMPLETE, LUI_GET_CMD, LUI_GOT_CMD]

/-- PLAY/STOP on a complete two-digit command entry: what the local UI does
for each kind of command. -/
theorem lui_accept_cmd (kind : Nat → CmdKind) (ui : LocalUI) (d1 d2 : Nat)
    (hi : ui.local_ui_state = LUI_INACTIVE) (h1 : d1 < 10) (h2 : d2 < 10) :
    lui_keys kind ui [KEY_MENU, digit_key d1, digit_key d2, KEY_PLAY_STOP] =
      match kind (bcd_value d1 d2) with
      | .invalid =>
        { local_ui_state := LUI_GOT_CMD, digits := [d1, d2], cmd := CMD_INVALID,
          val := none, executed := ui.executed }
      | .immediate =>
        { local_ui_state := LUI_CMD_COMPLETE, digits := [], cmd := bcd_value d1 d2,
          val := none, executed := ui.executed }
      | .takes_value =>
        { local_ui_state := LUI_GET_VAL, digits := [], cmd := bcd_value d1 d2,
          val := none, executed := ui.executed } := by
  have hsplit : lui_keys kind ui
      [KEY_MENU, digit_key d1, digit_key d2, KEY_PLAY_STOP] =
      handle_local_ui kind
        (lui_keys kind ui [KEY_MENU, digit_key d1, digit_key d2])
        (some KEY_PLAY_STOP) := rfl
  rw [hsplit, lui_after_two_digits kind ui d1 d2 hi h1 h2]
  have hk : lui_get_2_digits [d1, d2] KEY_PLAY_STOP = .accepted (bcd_value d1 d2) := by
    simp [lui_get_2_digits, KEY_PLAY_STOP, KEY_MENU]
  simp only [handle_local_ui, hk, LUI_GOT_CMD, LUI_CMD_COMPLETE, LUI_INACTIVE, LUI_GET_CMD]
  cases kind (bcd_value d1 d2) <;> simp

/-- Claim C2, as stated, fails for the firmware: LM_LUI.h says some commands
gather parameters, and with no command table that has such a command do STORE,
d1, d2, PLAY/STOP end in `LUI_CMD_COMPLETE` for all decimal digits; for the two
digits of a command that takes a parameter they end in `LUI_GET_VAL`. -/
theorem lui_two_digits_not_complete :
    (¬ ∃ kind : Nat → CmdKind, has_value_command kind ∧ lui_two_digits_complete kind) ∧
    (∀ kind : Nat → CmdKind,
      lui_two_digits_complete kind ↔ ∀ c, c < 100 → kind c = .immediate) := by
  have hchar : ∀ kind : Nat → CmdKind,
      lui_two_digits_complete kind ↔ ∀ c, c < 100 → kind c = .immediate := by
    intro kind
    constructor
    · intro hall c hc
      have hd1 : c / 10 < 10 := by omega
      have hd2 : c % 10 < 10 := by omega
      have hbcd : bcd_value (c / 10) (c % 10) = c := by
        unfold bcd_value
        omega
      have hst := (hall LocalUI.power_up (c / 10) (c % 10) rfl hd1 hd2).1
      rw [lui_accept_cmd kind LocalUI.power_up (c / 10) (c % 10) rfl hd1 hd2, hbcd] at hst
      cases hk : kind c with
      | immediate => rfl
      | invalid =>
        rw [hk] at hst
        have hne : LUI_GOT_CMD ≠ LUI_CMD_COMPLETE := by decide
        exact absurd hst hne
      | takes_value =>
        rw [hk] at hst
        have hne : LUI_GET_VAL ≠ LUI_CMD_COMPLETE := by decide
        exact absurd hst hne
    · intro himm ui d1 d2 hi h1 h2
      have hk : kind (bcd_value d1 d2) = .immediate :=
        himm _ (by unfold bcd_value; omega)
      rw [lui_accept_cmd kind ui d1 d2 hi h1 h2, hk]
      exact ⟨rfl, rfl⟩
  refine ⟨?_, hchar⟩
  rintro ⟨kind, ⟨c, hc, hkind⟩, hall⟩
  have himm := (hchar kind).1 hall c hc
  rw [hkind] at himm
  exact CmdKind.noConfusion himm

/-- Claim C2, amended: for all decimal digits d1 and d2, from any `LUI_INACTIVE`
state the keys STORE, d1, d2, PLAY/STOP enter the two digits as the BCD number
10*d1 + d2 and execute nothing; they end in `LUI_CMD_COMPLETE` with that command
when it requires no parameter, in `LUI_GET_VAL` with that command when it
requires one, and stay in `LUI_GOT_CMD` with both digits when the number is no
command. -/
theorem lui_two_digit_command (kind : Nat → CmdKind) (ui : LocalUI) (d1 d2 : Nat)
    (hi : ui.local_ui_state = LUI_INACTIVE) (h1 : d1 < 10) (h2 : d2 < 10) :
    (kind (10 * d1 + d2) = .immediate →
      (lui_keys kind ui
        [KEY_MENU, digit_key d1, digit_key d2, KEY_PLAY_STOP]).local_ui_state =
          LUI_CMD_COMPLETE ∧
      (lui_keys kind ui
        [KEY_MENU, digit_key d1, digit_key d2, KEY_PLAY_STOP]).cmd = 10 * d1 + d2) ∧
    (kind (10 * d1 + d2) = .takes_value →
      (lui_keys kind ui
        [KEY_MENU, digit_key d1, digit_key d2, KEY_PLAY_STOP]).local_ui_state =
          LUI_GET_VAL ∧
      (lui_keys kind ui
        [KEY_MENU, digit_key d1, digit_key d2, KEY_PLAY_STOP]).cmd = 10 * d1 + d2 ∧
      (lui_keys kind ui
        [KEY_MENU, digit_key d1, digit_key d2, KEY_PLAY_STOP]).digits = []) ∧
    (kind (10 * d1 + d2) = .invalid →
      (lui_keys kind ui
        [KEY_MENU, digit_key d1, digit_key d2, KEY_PLAY_STOP]).local_ui_state =
          LUI_GOT_CMD ∧
      (lui_keys kind ui
        [KEY_MENU, digit_key d1, digit_key d2, KEY_PLAY_STOP]).cmd = CMD_INVALID ∧
      (lui_keys kind ui
        [KEY_MENU, digit_key d1, digit_key d2, KEY_PLAY_STOP]).digits = [d1, d2]) ∧
    (lui_keys kind ui
      [KEY_MENU, digit_key d1, digit_key d2, KEY_PLAY_STOP]).executed = ui.executed ∧
    (lui_keys kind ui [KEY_MENU, digit_key d1, digit_key d2]).local_ui_state = LUI_GOT_CMD ∧
    (lui_keys kind ui [KEY_MENU, digit_key d1, digit_key d2]).digits = [d1, d2] := by
  have hacc := lui_accept_cmd kind ui d1 d2 hi h1 h2
  have hb : bcd_value d1 d2 = 10 * d1 + d2 := rfl
  rw [hb] at hacc
  have htwo := lui_after_two_digits kind ui d1 d2 hi h1 h2
  refine ⟨?_, ?_, ?_, ?_, ?_, ?_⟩
  · intro hk
    rw [hacc, hk]
    exact ⟨rfl, rfl⟩
  · intro hk
    rw [hacc, hk]
    exact ⟨rfl, rfl, rfl⟩
  · intro hk
    rw [hacc, hk]
    exact ⟨rfl, rfl, rfl⟩
  · rw [hacc]
    cases kind (10 * d1 + d2) <;> rfl
  · rw [htwo]
  · rw [htwo]

/-- Digits 0 and 3 from power-up: with a table of parameterless commands STORE,
0, 3, PLAY/STOP ends in `LUI_CMD_COMPLETE` with command 03; with a table in which
12 takes a parameter STORE, 1, 2, PLAY/STOP ends in `LUI_GET_VAL` with command
12. -/
theorem lui_two_digit_command_witness :
    ((lui_keys cmd_table_all_immediate LocalUI.power_up
      [KEY_MENU, digit_key 0, digit_key 3, KEY_PLAY_STOP]).local_ui_state =
        LUI_CMD_COMPLETE ∧
    (lui_keys cmd_table_all_immediate LocalUI.power_up
      [KEY_MENU, digit_key 0, digit_key 3, KEY_PLAY_STOP]).cmd = 10 * 0 + 3) ∧
    ((lui_keys cmd_table_12_takes_value LocalUI.power_up
      [KEY_MENU, digit_key 1, digit_key 2, KEY_PLAY_STOP]).local_ui_state =
        LUI_GET_VAL ∧
    (lui_keys cmd_table_12_takes_value LocalUI.power_up
      [KEY_MENU, digit_key 1, digit_key 2, KEY_PLAY_STOP]).cmd = 10 * 1 + 2 ∧
    (lui_keys cmd_table_12_takes_value LocalUI.power_up
      [KEY_MENU, digit_key 1, digit_key 2, KEY_PLAY_STOP]).digits = []) :=
  ⟨(lui_two_digit_command cmd_table_all_immediate LocalUI.power_up 0 3 rfl
      (by decide) (by decide)).1 rfl,
   (lui_two_digit_command cmd_table_12_takes_value LocalUI.power_up 1 2 rfl
      (by decide) (by decide)).2.1 rfl⟩

/-- A key other than STORE and PLAY/STOP neither cancels nor accepts an entry. -/
theorem lui_get_2_digits_pending (ds : List Nat) (k : Nat) (h1 : k ≠ KEY_MENU)
    (h2 : k ≠ KEY_PLAY_STOP) : ∃ ds2, lui_get_2_digits ds k = .pending ds2 := by
  simp only [lui_get_2_digits, if_neg h1, if_neg h2]
  split
  · exact ⟨_, rfl⟩
  · split
    · split <;> exact ⟨_, rfl⟩
    · exact ⟨_, rfl⟩

/-- A key other than STORE and PLAY/STOP keeps a command entry a command entry
and executes nothing. -/
theorem lui_cmd_entry_step (kind : Nat → CmdKind) (ui : LocalUI) (k : Nat)
    (h : lui_cmd_entry ui.local_ui_state) (h1 : k ≠ KEY_MENU) (h2 : k ≠ KEY_PLAY_STOP) :
    lui_cmd_entry (handle_local_ui kind ui (some k)).local_ui_state ∧
    (handle_local_ui kind ui (some k)).executed = ui.executed := by
  obtain ⟨ds2, hd⟩ := lui_get_2_digits_pending ui.digits k h1 h2
  have hc : ui.local_ui_state ≠ LUI_CMD_COMPLETE := by
    rcases h with h | h <;> rw [h] <;> decide
  have hi : ui.local_ui_state ≠ LUI_INACTIVE := by
    rcases h with h | h <;> rw [h] <;> decide
  have hor : ui.local_ui_state = LUI_GET_CMD ∨ ui.local_ui_state = LUI_GOT_CMD := h
  simp only [handle_local_ui, if_neg hc, if_neg hi, if_pos hor, hd]
  refine ⟨?_, trivial⟩
  unfold lui_cmd_entry
  split <;> simp

/-- A key other than STORE and PLAY/STOP keeps a value entry a value entry and
executes nothing. -/
theorem lui_val_entry_step (kind : Nat → CmdKind) (ui : LocalUI) (k : Nat)
    (h : lui_val_entry ui.local_ui_state) (h1 : k ≠ KEY_MENU) (h2 : k ≠ KEY_PLAY_STOP) :
    lui_val_entry (handle_local_ui kind ui (some k)).local_ui_state ∧
    (handle_local_ui kind ui (some k)).executed = ui.executed := by
  obtain ⟨ds2, hd⟩ := lui_get_2_digits_pending ui.digits k h1 h2
  have hc : ui.local_ui_state ≠ LUI_CMD_COMPLETE := by
    rcases h with h | h <;> rw [h] <;> decide
  have hi : ui.local_ui_state ≠ LUI_INACTIVE := by
    rcases h with h | h <;> rw [h] <;> decide
  have hn : ¬ (ui.local_ui_state = LUI_GET_CMD ∨ ui.local_ui_state = LUI_GOT_CMD) := by
    rcases h with h | h <;> rw [h] <;> decide
  have hor : ui.local_ui_state = LUI_GET_VAL ∨ ui.local_ui_state = LUI_GOT_VAL := h
  simp only [handle_local_ui, if_neg hc, if_neg hi, if_neg hn, if_pos hor, hd]
  refine ⟨?_, trivial⟩
  unfold lui_val_entry
  split <;> simp

/-- Keys other than STORE and PLAY/STOP keep the local UI in the kind of entry
it is in, and execute nothing. -/
theorem lui_entry_keys (kind : Nat → CmdKind) (ks : List Nat) :
    ∀ ui : LocalUI, (∀ k ∈ ks, k ≠ KEY_MENU ∧ k ≠ KEY_PLAY_STOP) →
      (lui_cmd_entry ui.local_ui_state →
        lui_cmd_entry (lui_keys kind ui ks).local_ui_state ∧
        (lui_keys kind ui ks).executed = ui.executed) ∧
      (lui_val_entry ui.local_ui_state →
        lui_val_entry (lui_keys kind ui ks).local_ui_state ∧
        (lui_keys kind ui ks).executed = ui.executed) := by
  induction ks with
  | nil => intro ui _; exact ⟨fun h => ⟨h, rfl⟩, fun h => ⟨h, rfl⟩⟩
  | cons k ks ih =>
    intro ui hks
    have hk := hks k (List.mem_cons_self _ _)
    have hrest : ∀ j ∈ ks, j ≠ KEY_MENU ∧ j ≠ KEY_PLAY_STOP :=
      fun j hj => hks j (List.mem_cons_of_mem _ hj)
    have hrun : lui_keys kind ui (k :: ks) =
        lui_keys kind (handle_local_ui kind ui (some k)) ks := rfl
    rw [hrun]
    constructor
    · intro h
      obtain ⟨hs, he⟩ := lui_cmd_entry_step kind ui k h hk.1 hk.2
      obtain ⟨hs2, he2⟩ := (ih _ hrest).1 hs
      exact ⟨hs2, he2.trans he⟩
    · intro h
      obtain ⟨hs, he⟩ := lui_val_entry_step kind ui k h hk.1 hk.2
      obtain ⟨hs2, he2⟩ := (ih _ hrest).2 hs
      exact ⟨hs2, he2.trans he⟩

/-- STORE in an entry state leaves Local UI mode and executes nothing. -/
theorem lui_store_in_entry (kind : Nat → CmdKind) (ui : LocalUI)
    (h : lui_entry_state ui.local_ui_state) :
    handle_local_ui kind ui (some KEY_MENU) = ui.leave := by
  have hc : ui.local_ui_state ≠ LUI_CMD_COMPLETE := by
    rcases h with h | h | h | h <;> rw [h] <;> decide
  have hi : ui.local_ui_state ≠ LUI_INACTIVE := by
    rcases h with h | h | h | h <;> rw [h] <;> decide
  have hm : ∀ ds, lui_get_2_digits ds KEY_MENU = .cancelled := by
    intro ds; simp [lui_get_2_digits]
  simp only [handle_local_ui, if_neg hc, if_neg hi, hm]
  rcases h with h | h | h | h <;> rw [h] <;> simp [LUI_GET_CMD, LUI_GOT_CMD, LUI_GET_VAL,
    LUI_GOT_VAL]

/-- Claim C3: in any entry state of the local UI (getting a command or getting
a value, whatever digits are entered), and after any further keys other than
STORE and PLAY/STOP, pressing STORE returns to `LUI_INACTIVE` and executes no
command side effect; a value entry stays a value entry until then, and its
cancel goes to `LUI_INACTIVE`, not back to `LUI_GET_CMD`. -/
theorem lui_store_cancels (kind : Nat → CmdKind) (ui : LocalUI) (ks : List Nat)
    (h : lui_entry_state ui.local_ui_state)
    (hks : ∀ k ∈ ks, k ≠ KEY_MENU ∧ k ≠ KEY_PLAY_STOP) :
    lui_entry_state (lui_keys kind ui ks).local_ui_state ∧
    (lui_val_entry ui.local_ui_state → lui_val_entry (lui_keys kind ui ks).local_ui_state) ∧
    (lui_keys kind ui (ks ++ [KEY_MENU])).local_ui_state = LUI_INACTIVE ∧
    (lui_keys kind ui (ks ++ [KEY_MENU])).local_ui_state ≠ LUI_GET_CMD ∧
    (lui_keys kind ui (ks ++ [KEY_MENU])).executed = ui.executed ∧
    (lui_keys kind ui (ks ++ [KEY_MENU])).digits = [] ∧
    (lui_keys kind ui (ks ++ [KEY_MENU])).cmd = CMD_INVALID ∧
    (lui_keys kind ui (ks ++ [KEY_MENU])).val = none := by
  have hkeys := lui_entry_keys kind ks ui hks
  have hentry : lui_entry_state (lui_keys kind ui ks).local_ui_state ∧
      (lui_keys kind ui ks).executed = ui.executed := by
    rcases h with h | h | h | h
    · obtain ⟨a, b⟩ := hkeys.1 (Or.inl h)
      exact ⟨by rcases a with a | a <;> simp [lui_entry_state, a], b⟩
    · obtain ⟨a, b⟩ := hkeys.1 (Or.inr h)
      exact ⟨by rcases a with a | a <;> simp [lui_entry_state, a], b⟩
    · obtain ⟨a, b⟩ := hkeys.2 (Or.inl h)
      exact ⟨by rcases a with a | a <;> simp [lui_entry_state, a], b⟩
    · obtain ⟨a, b⟩ := hkeys.2 (Or.inr h)
      exact ⟨by rcases a with a | a <;> simp [lui_entry_state, a], b⟩
  have hlast : lui_keys kind ui (ks ++ [KEY_MENU]) = (lui_keys kind ui ks).leave := by
    simp only [lui_keys, List.foldl_append, List.foldl_cons, List.foldl_nil]
    exact lui_store_in_entry kind _ hentry.1
  rw [hlast]
  have hne : LUI_INACTIVE ≠ LUI_GET_CMD := by decide
  exact ⟨hentry.1, fun hv => (hkeys.2 hv).1, rfl, hne, hentry.2, rfl, rfl, rfl⟩

/-- Command 12 takes a value: after STORE, 1, 2, PLAY/STOP the local UI is
getting the value; with digits 4 and 5 entered, STORE goes to `LUI_INACTIVE` and
nothing has been executed. -/
theorem lui_store_cancels_witness :
    lui_val_entry (lui_keys cmd_table_12_takes_value
      (lui_keys cmd_table_12_takes_value LocalUI.power_up
        [KEY_MENU, KEY_NUM_1, KEY_NUM_2, KEY_PLAY_STOP])
      [KEY_NUM_4, KEY_NUM_5]).local_ui_state ∧
    (lui_keys cmd_table_12_takes_value
      (lui_keys cmd_table_12_takes_value LocalUI.power_up
        [KEY_MENU, KEY_NUM_1, KEY_NUM_2, KEY_PLAY_STOP])
      ([KEY_NUM_4, KEY_NUM_5] ++ [KEY_MENU])).local_ui_state = LUI_INACTIVE ∧
    (lui_keys cmd_table_12_takes_value
      (lui_keys cmd_table_12_takes_value LocalUI.power_up
        [KEY_MENU, KEY_NUM_1, KEY_NUM_2, KEY_PLAY_STOP])
      ([KEY_NUM_4, KEY_NUM_5] ++ [KEY_MENU])).executed = [] :=
  have hw := lui_store_cancels cmd_table_12_takes_value
    (lui_keys cmd_table_12_takes_value LocalUI.power_up
      [KEY_MENU, KEY_NUM_1, KEY_NUM_2, KEY_PLAY_STOP])
    [KEY_NUM_4, KEY_NUM_5] (by decide) (by decide)
  ⟨hw.2.1 (by decide), hw.2.2.1, hw.2.2.2.2.1⟩

/-! ### MIDI routing values -/

/-- Claim C11: the routing values are NONE = 0x00, DIN5 = 0x01, USB = 0x02 and
DIN5+USB = 0x03, DIN5 and USB being disjoint single bits and ROUTE_DIN5_USB
their OR; every subset of the two transports has exactly one routing value and
every value 0..3 denotes exactly one subset. -/
theorem route_values_are_subsets :
    ROUTE_NONE = 0x00 ∧ ROUTE_DIN5 = 0x01 ∧ ROUTE_USB = 0x02 ∧ ROUTE_DIN5_USB = 0x03 ∧
    ROUTE_DIN5 = 1 <<< 0 ∧ ROUTE_USB = 1 <<< 1 ∧
    ROUTE_DIN5 &&& ROUTE_USB = 0 ∧
    ROUTE_DIN5_USB = ROUTE_DIN5 ||| ROUTE_USB ∧
    route_of false false = ROUTE_NONE ∧ route_of true false = ROUTE_DIN5 ∧
    route_of false true = ROUTE_USB ∧ route_of true true = ROUTE_DIN5_USB ∧
    (∀ din5 usb : Bool, route_of din5 usb ∈ route_values ∧
      route_transports (route_of din5 usb) = (din5, usb)) ∧
    (∀ r : Nat, r ≤ 3 →
      r ∈ route_values ∧ route_of (route_transports r).1 (route_transports r).2 = r) ∧
    (∀ r : Nat, r ∈ route_values ↔ r ≤ 3) ∧
    route_values.Nodup := by
  have hle : ∀ r : Nat, r < 4 →
      r ∈ route_values ∧ route_of (route_transports r).1 (route_transports r).2 = r := by
    decide
  have hmem : ∀ r ∈ route_values, r ≤ 3 := by decide
  refine ⟨rfl, rfl, rfl, rfl, rfl, rfl, by decide, by decide, by decide, by decide,
    by decide, by decide, by decide, ?_, ?_, by decide⟩
  · intro r hr
    exact hle r (by omega)
  · intro r
    exact ⟨hmem r, fun hr => (hle r (by omega)).1⟩

/-- The value 2 is a routing value, and it is the value of the subset it
denotes (USB alone). -/
theorem route_values_are_subsets_witness :
    2 ∈ route_values ∧ route_of (route_transports 2).1 (route_transports 2).2 = 2 :=
  route_values_are_subsets.2.2.2.2.2.2.2.2.2.2.2.2.2.1 2 (by decide)

/-! ### EEPROM parameter keys -/

/-- Claim C12: every single-byte parameter key is distinct from every other key
and lies in the general-purpose range 0..511, and the 8-byte serial number
starting at offset 512 lies wholly inside the separate range 512..1023, so no
parameter byte overlaps another parameter or the serial number. -/
theorem eeprom_keys_disjoint :
    eeprom_param_keys.length = 10 ∧
    eeprom_param_keys.Nodup ∧
    (∀ k ∈ eeprom_param_keys, k ≤ eeprom_param_last) ∧
    eeprom_param_last = 511 ∧ eeprom_info_first = 512 ∧ eeprom_info_last = 1023 ∧
    LM_EEPROM_SERIAL_NUM = 512 ∧ SERIAL_NUM_LEN = 8 ∧
    serial_num_bytes.length = 8 ∧
    (∀ a ∈ serial_num_bytes, eeprom_info_first ≤ a ∧ a ≤ eeprom_info_last) ∧
    (∀ a : Nat, a ∈ serial_num_bytes ↔
      LM_EEPROM_SERIAL_NUM ≤ a ∧ a < LM_EEPROM_SERIAL_NUM + SERIAL_NUM_LEN) ∧
    (∀ k ∈ eeprom_param_keys, k ∉ serial_num_bytes) ∧
    (eeprom_param_keys ++ serial_num_bytes).Nodup := by
  refine ⟨rfl, by decide, by decide, rfl, rfl, rfl, rfl, rfl, rfl, by decide, ?_, by decide,
    by decide⟩
  intro a
  unfold serial_num_bytes
  rw [List.mem_range'_1]

/-- The key of the MIDI channel is in the general-purpose range and is no byte
of the serial number. -/
theorem eeprom_keys_disjoint_witness :
    LM_EEPROM_MIDI_CHANNEL ≤ eeprom_param_last ∧
    LM_EEPROM_MIDI_CHANNEL ∉ serial_num_bytes :=
  ⟨eeprom_keys_disjoint.2.2.1 LM_EEPROM_MIDI_CHANNEL (by decide),
   eeprom_keys_disjoint.2.2.2.2.2.2.2.2.2.2.2.1 LM_EEPROM_MIDI_CHANNEL (by decide)⟩

/-! ### Reserved bank identifier -/

/-- Claim C13: the reserved bank identifier 0xff (`BANK_STAGING`, and the
current-RAM bank value of the sysex and RAM-bank calls) is a valid byte that
differs from every bank number 0..99: the sentinel is never a numbered bank and
a numbered bank is never the sentinel. -/
theorem bank_staging_is_no_bank_number :
    BANK_STAGING = 0xff ∧ BANKNUM_CURRENT_RAM = 0xff ∧
    BANK_STAGING < 2 ^ 8 ∧ BANKNUM_CURRENT_RAM < 2 ^ 8 ∧
    ¬ is_bank_number BANK_STAGING ∧ ¬ is_bank_number BANKNUM_CURRENT_RAM ∧
    (∀ b : Nat, is_bank_number b →
      b < 2 ^ 8 ∧ b ≠ BANK_STAGING ∧ b ≠ BANKNUM_CURRENT_RAM) := by
  refine ⟨rfl, rfl, by decide, by decide, by decide, by decide, ?_⟩
  intro b hb
  unfold is_bank_number at hb
  simp only [BANK_STAGING, BANKNUM_CURRENT_RAM]
  omega

/-- Bank 99, the last numbered bank, is a byte and is not the sentinel. -/
theorem bank_staging_is_no_bank_number_witness :
    99 < 2 ^ 8 ∧ 99 ≠ BANK_STAGING ∧ 99 ≠ BANKNUM_CURRENT_RAM :=
  bank_staging_is_no_bank_number.2.2.2.2.2.2 99 (by decide)

/-! ### Digit keys -/

/-- A keycode that is no digit key enters no digit. -/
theorem key_digit_above (k : Nat) (h : 10 ≤ k) : key_digit k = none := by
  unfold key_digit
  simp only [KEY_NUM_0, KEY_NUM_1, KEY_NUM_2, KEY_NUM_3, KEY_NUM_4, KEY_NUM_5, KEY_NUM_6,
    KEY_NUM_7, KEY_NUM_8, KEY_NUM_9]
  repeat (first | rfl | (rw [if_neg (by omega)]))

/-- Claim C16: for every decimal digit d the keycode of the digit key d is d
itself (KEY_NUM_d = d), the digit keys are exactly the keycodes below 10, and
the keys that control entry (MENU/STORE 0x19, PLAY/STOP 0x17, left arrow 0x12)
are never read as a digit. -/
theorem digit_keys_are_digits :
    digit_keys = List.range 10 ∧
    (∀ d : Nat, d < 10 → digit_key d = d ∧ digit_keys.getD d 0 = d ∧
      key_digit d = some d) ∧
    (∀ k : Nat, k ∈ digit_keys ↔ k < 10) ∧
    (∀ k : Nat, (∃ d, key_digit k = some d) ↔ k < 10) ∧
    (∀ k ∈ all_keycodes, k ∈ digit_keys ↔ k < 10) ∧
    KEY_MENU = 0x19 ∧ KEY_PLAY_STOP = 0x17 ∧ KEY_L_ARROW = 0x12 ∧
    KEY_MENU ∉ digit_keys ∧ KEY_PLAY_STOP ∉ digit_keys ∧ KEY_L_ARROW ∉ digit_keys ∧
    key_digit KEY_MENU = none ∧ key_digit KEY_PLAY_STOP = none ∧
    key_digit KEY_L_ARROW = none := by
  have hlist : digit_keys = List.range 10 := by decide
  have hmem : ∀ k : Nat, k ∈ digit_keys ↔ k < 10 := by
    intro k
    rw [hlist, List.mem_range]
  have hdig : ∀ d : Nat, d < 10 → digit_key d = d ∧ digit_keys.getD d 0 = d ∧
      key_digit d = some d := by decide
  refine ⟨hlist, hdig, hmem, ?_, fun k _ => hmem k, rfl, rfl, rfl, by decide, by decide,
    by decide, by decide, by decide, by decide⟩
  intro k
  constructor
  · rintro ⟨d, hd⟩
    by_contra hk
    rw [key_digit_above k (by omega)] at hd
    exact Option.noConfusion hd
  · intro hk
    exact ⟨k, (hdig k hk).2.2⟩

/-- The digit key 7 has keycode 7 and enters the digit 7. -/
theorem digit_keys_are_digits_witness :
    digit_key 7 = 7 ∧ digit_keys.getD 7 0 = 7 ∧ key_digit 7 = some 7 :=
  digit_keys_are_digits.2.1 7 (by decide)

/-! ### Notes, selectors, strobes, voice numbers -/

/-- Claim C14: mapping each MIDI note 36..48 to the selector of its drum (38
and 39 to hi-hat, 43 and 44 to tom, 45 and 46 to conga, every other note to its
own drum) is total on 36..48, order-preserving, and onto the ten drum selectors
0..9: every selector is the image of at least one and at most two notes, and
each note yields exactly one selector. -/
theorem drum_note_map_order_preserving :
    midi_drum_notes.map midi_note_2_drum_sel =
      [some 0, some 1, some 2, some 2, some 3, some 4, some 5, some 6, some 6, some 7,
       some 7, some 8, some 9] ∧
    midi_note_2_drum_sel 38 = some DRUM_SEL_HIHAT ∧
    midi_note_2_drum_sel 39 = some DRUM_SEL_HIHAT ∧
    midi_note_2_drum_sel 43 = some DRUM_SEL_TOM ∧
    midi_note_2_drum_sel 44 = some DRUM_SEL_TOM ∧
    midi_note_2_drum_sel 45 = some DRUM_SEL_CONGA ∧
    midi_note_2_drum_sel 46 = some DRUM_SEL_CONGA ∧
    (∀ n : Nat, 36 ≤ n → n ≤ 48 →
      ∃ s, (midi_note_2_drum_sel n = some s ∧ s ≤ 9) ∧
        ∀ t, midi_note_2_drum_sel n = some t → t = s) ∧
    (∀ a b : Nat, 36 ≤ a → a ≤ b → b ≤ 48 →
      ∀ sa sb, midi_note_2_drum_sel a = some sa → midi_note_2_drum_sel b = some sb →
        sa ≤ sb) ∧
    (∀ s : Nat, s ≤ 9 →
      1 ≤ (midi_drum_notes.filter (fun n => midi_note_2_drum_sel n == some s)).length ∧
      (midi_drum_notes.filter (fun n => midi_note_2_drum_sel n == some s)).length ≤ 2 ∧
      ∃ n, 36 ≤ n ∧ n ≤ 48 ∧ midi_note_2_drum_sel n = some s) := by
  have htotal : ∀ n ∈ midi_drum_notes, ∃ s, s < 10 ∧ midi_note_2_drum_sel n = some s := by
    decide
  have hmono : ∀ a ∈ midi_drum_notes, ∀ b ∈ midi_drum_notes, a ≤ b →
      (midi_note_2_drum_sel a).getD 0 ≤ (midi_note_2_drum_sel b).getD 0 := by decide
  have honto : ∀ s : Nat, s < 10 →
      1 ≤ (midi_drum_notes.filter (fun n => midi_note_2_drum_sel n == some s)).length ∧
      (midi_drum_notes.filter (fun n => midi_note_2_drum_sel n == some s)).length ≤ 2 ∧
      ∃ n ∈ midi_drum_notes, midi_note_2_drum_sel n = some s := by decide
  refine ⟨by decide, by decide, by decide, by decide, by decide, by decide, by decide,
    ?_, ?_, ?_⟩
  · intro n h1 h2
    obtain ⟨s, hs, hn⟩ := htotal n ((mem_midi_drum_notes n).2 ⟨h1, h2⟩)
    refine ⟨s, ⟨hn, by omega⟩, ?_⟩
    intro t ht
    rw [hn] at ht
    exact (Option.some.inj ht).symm
  · intro a b h1 h2 h3 sa sb ha hb
    have := hmono a ((mem_midi_drum_notes a).2 ⟨h1, by omega⟩)
      b ((mem_midi_drum_notes b).2 ⟨by omega, h3⟩) h2
    rw [ha, hb] at this
    exact this
  · intro s hs
    obtain ⟨h1, h2, n, hn, hm⟩ := honto s (by omega)
    have hr := (mem_midi_drum_notes n).1 hn
    exact ⟨h1, h2, n, hr.1, hr.2, hm⟩

/-- The tom selector 6 is the image of two notes, 43 and 44, and of no more. -/
theorem drum_note_map_order_preserving_witness :
    1 ≤ (midi_drum_notes.filter (fun n => midi_note_2_drum_sel n == some 6)).length ∧
    (midi_drum_notes.filter (fun n => midi_note_2_drum_sel n == some 6)).length ≤ 2 ∧
    ∃ n, 36 ≤ n ∧ n ≤ 48 ∧ midi_note_2_drum_sel n = some 6 :=
  drum_note_map_order_preserving.2.2.2.2.2.2.2.2.2 6 (by decide)

/-- A value that is no drum selector has no strobe. -/
theorem drum_sel_2_voice_above (s : Nat) (h : 10 ≤ s) : drum_sel_2_voice s = none := by
  unfold drum_sel_2_voice
  simp only [DRUM_SEL_BASS, DRUM_SEL_SNARE, DRUM_SEL_HIHAT, DRUM_SEL_CLAPS, DRUM_SEL_CABASA,
    DRUM_SEL_TAMB, DRUM_SEL_TOM, DRUM_SEL_CONGA, DRUM_SEL_COWBELL, DRUM_SEL_CLAVE]
  repeat (first | rfl | (rw [if_neg (by omega)]))

/-- Claim C15: for each of the ten drums the strobe address is `STB_BASS` plus
the drum's sysex selector, so the selector-to-strobe map `drum_sel_2_voice` is
injective on 0..9 and its image is exactly the ten drum strobes
0xd804..0xd80d, never the click strobe 0xd80e. -/
theorem drum_strobe_is_base_plus_sel :
    STB_BASS = 0xd804 ∧
    STB_BASS = STB_BASS + DRUM_SEL_BASS ∧ STB_SNARE = STB_BASS + DRUM_SEL_SNARE ∧
    STB_HIHAT = STB_BASS + DRUM_SEL_HIHAT ∧ STB_CLAPS = STB_BASS + DRUM_SEL_CLAPS ∧
    STB_CABASA = STB_BASS + DRUM_SEL_CABASA ∧ STB_TAMB = STB_BASS + DRUM_SEL_TAMB ∧
    STB_TOMS = STB_BASS + DRUM_SEL_TOM ∧ STB_CONGAS = STB_BASS + DRUM_SEL_CONGA ∧
    STB_COWBELL = STB_BASS + DRUM_SEL_COWBELL ∧ STB_CLAVE = STB_BASS + DRUM_SEL_CLAVE ∧
    (∀ s : Nat, s ≤ 9 → drum_sel_2_voice s = some (STB_BASS + s)) ∧
    (∀ a b : Nat, a ≤ 9 → b ≤ 9 → drum_sel_2_voice a = drum_sel_2_voice b → a = b) ∧
    (∀ v : Nat, (∃ s, s ≤ 9 ∧ drum_sel_2_voice s = some v) ↔ v ∈ drum_strobes) ∧
    (∀ v : Nat, v ∈ drum_strobes ↔ 0xd804 ≤ v ∧ v ≤ 0xd80d) ∧
    STB_CLICK = 0xd80e ∧
    (∀ s : Nat, drum_sel_2_voice s ≠ some STB_CLICK) := by
  have hsel : ∀ s : Nat, s < 10 → drum_sel_2_voice s = some (STB_BASS + s) := by decide
  have hstb : drum_strobes = List.range' 0xd804 10 := by decide
  have hmem : ∀ v : Nat, v ∈ drum_strobes ↔ 0xd804 ≤ v ∧ v ≤ 0xd80d := by
    intro v
    rw [hstb, List.mem_range'_1]
    omega
  refine ⟨rfl, rfl, rfl, rfl, rfl, rfl, rfl, rfl, rfl, rfl, rfl, ?_, ?_, ?_, hmem, rfl, ?_⟩
  · intro s hs
    exact hsel s (by omega)
  · intro a b ha hb hab
    rw [hsel a (by omega), hsel b (by omega)] at hab
    have := Option.some.inj hab
    omega
  · intro v
    rw [hmem]
    constructor
    · rintro ⟨s, hs, hv⟩
      rw [hsel s (by omega)] at hv
      have := Option.some.inj hv
      simp only [STB_BASS] at this
      omega
    · rintro ⟨h1, h2⟩
      refine ⟨v - 0xd804, by omega, ?_⟩
      rw [hsel _ (by omega)]
      have hv : STB_BASS + (v - 0xd804) = v := by
        simp only [STB_BASS]
        omega
      rw [hv]
  · intro s hs
    by_cases h : s < 10
    · rw [hsel s h] at hs
      have := Option.some.inj hs
      simp only [STB_BASS, STB_CLICK] at this
      omega
    · rw [drum_sel_2_voice_above s (by omega)] at hs
      exact Option.noConfusion hs

/-- The tom selector 6 maps to 0xd804 + 6 = 0xd80a, the strobe `STB_TOMS`. -/
theorem drum_strobe_is_base_plus_sel_witness :
    drum_sel_2_voice 6 = some (STB_BASS + 6) :=
  drum_strobe_is_base_plus_sel.2.2.2.2.2.2.2.2.2.2.2.1 6 (by decide)

/-- Claim C17: `voice_num_map`, indexed by drum selector 0..9 (strobe address
minus `STB_BASS`), decodes (high nibble 0xF = blank tens digit, otherwise two
BCD digits) to a permutation of the voice numbers 1..10, and the voice number n
shown for a drum is the bit position of that drum's bank-load flag:
BANK_LOAD of the drum = 1 << (n - 1), for all ten drums. -/
theorem voice_num_map_matches_bank_load :
    voice_num_map.length = 10 ∧
    voice_num_map.map voice_num_decode = [4, 3, 5, 7, 10, 9, 2, 1, 6, 8] ∧
    (voice_num_map.map voice_num_decode).Perm (List.range' 1 10) ∧
    (∀ n : Nat, n ∈ voice_num_map.map voice_num_decode ↔ 1 ≤ n ∧ n ≤ 10) ∧
    (∀ s : Nat, s ≤ 9 →
      voice_num_of_strobe (STB_BASS + s) = voice_num_of_sel s ∧
      bank_load_by_sel.getD s 0 = 1 <<< (voice_num_of_sel s - 1)) ∧
    BANK_LOAD_BASS = 1 <<< (voice_num_of_strobe STB_BASS - 1) ∧
    BANK_LOAD_SNARE = 1 <<< (voice_num_of_strobe STB_SNARE - 1) ∧
    BANK_LOAD_HIHAT = 1 <<< (voice_num_of_strobe STB_HIHAT - 1) ∧
    BANK_LOAD_CLAPS = 1 <<< (voice_num_of_strobe STB_CLAPS - 1) ∧
    BANK_LOAD_CABASA = 1 <<< (voice_num_of_strobe STB_CABASA - 1) ∧
    BANK_LOAD_TAMB = 1 <<< (voice_num_of_strobe STB_TAMB - 1) ∧
    BANK_LOAD_TOMS = 1 <<< (voice_num_of_strobe STB_TOMS - 1) ∧
    BANK_LOAD_CONGAS = 1 <<< (voice_num_of_strobe STB_CONGAS - 1) ∧
    BANK_LOAD_COWBELL = 1 <<< (voice_num_of_strobe STB_COWBELL - 1) ∧
    BANK_LOAD_CLAVE = 1 <<< (voice_num_of_strobe STB_CLAVE - 1) := by
  have hperm : (voice_num_map.map voice_num_decode).Perm (List.range' 1 10) := by decide
  have hsel : ∀ s : Nat, s < 10 →
      voice_num_of_strobe (STB_BASS + s) = voice_num_of_sel s ∧
      bank_load_by_sel.getD s 0 = 1 <<< (voice_num_of_sel s - 1) := by decide
  refine ⟨rfl, by decide, hperm, ?_, fun s hs => hsel s (by omega), by decide, by decide,
    by decide, by decide, by decide, by decide, by decide, by decide, by decide, by decide⟩
  intro n
  rw [hperm.mem_iff, List.mem_range'_1]
  omega

/-- Cabasa, selector 4: the table byte 0x10 shows voice 10 and the cabasa flag
is bit 9, 0x0200. -/
theorem voice_num_map_matches_bank_load_witness :
    voice_num_of_strobe (STB_BASS + 4) = voice_num_of_sel 4 ∧
    bank_load_by_sel.getD 4 0 = 1 <<< (voice_num_of_sel 4 - 1) :=
  voice_num_map_matches_bank_load.2.2.2.2.1 4 (by decide)

/-! ### Bit flags and bit fields -/

set_option maxRecDepth 100000 in
/-- A bitmap of ten bits is the OR of the flags it selects. -/
theorem or_of_selected_voices : ∀ v : Nat, v < 1024 → or_of_flags (selected_voices v) = v := by
  decide

/-- A bitmap is within `BANK_LOAD_ALL` exactly when it has ten bits. -/
theorem within_bank_load_all_iff (v : Nat) : within_bank_load_all v ↔ v < 2 ^ 10 := by
  unfold within_bank_load_all
  have hall : BANK_LOAD_ALL = 2 ^ 10 - 1 := by decide
  rw [hall, Nat.and_pow_two_sub_one_eq_mod]
  constructor
  · intro h
    rw [← h]
    exact Nat.mod_lt _ (by decide)
  · intro h
    exact Nat.mod_eq_of_lt h

/-- Claim C18: the ten `BANK_LOAD_*` flags are ten pairwise distinct single-bit
masks whose bitwise OR is exactly `BANK_LOAD_ALL` = 0x03ff = 2^10 - 1; hence
every `voice_selects` bitmap within `BANK_LOAD_ALL` denotes a unique subset of
the ten voices, and `BANK_LOAD_ALL` selects all ten voices and nothing else. -/
theorem bank_load_flags_are_bits :
    bank_load_flags = (List.range 10).map (fun i => 1 <<< i) ∧
    bank_load_flags.length = 10 ∧
    bank_load_flags.Nodup ∧
    (∀ f ∈ bank_load_flags, ∃ i, i < 10 ∧ f = 1 <<< i) ∧
    or_of_flags bank_load_flags = BANK_LOAD_ALL ∧
    BANK_LOAD_ALL = 0x03ff ∧ BANK_LOAD_ALL = 2 ^ 10 - 1 ∧
    (∀ v : Nat, within_bank_load_all v → or_of_flags (selected_voices v) = v) ∧
    (∀ a b : Nat, within_bank_load_all a → within_bank_load_all b →
      selected_voices a = selected_voices b → a = b) ∧
    within_bank_load_all BANK_LOAD_ALL ∧
    selected_voices BANK_LOAD_ALL = bank_load_flags ∧
    (∀ i : Nat, BANK_LOAD_ALL.testBit i = true ↔ 1 <<< i ∈ bank_load_flags) := by
  have hrec : ∀ v : Nat, within_bank_load_all v → or_of_flags (selected_voices v) = v :=
    fun v hv => or_of_selected_voices v ((within_bank_load_all_iff v).1 hv)
  have hbits : ∀ i : Nat, i < 10 →
      (BANK_LOAD_ALL.testBit i = true ∧ 1 <<< i ∈ bank_load_flags) := by decide
  refine ⟨by decide, rfl, by decide, by decide, by decide, rfl, by decide, hrec, ?_,
    by decide, by decide, ?_⟩
  · intro a b ha hb hab
    rw [← hrec a ha, ← hrec b hb, hab]
  · intro i
    by_cases hi : i < 10
    · exact ⟨fun _ => (hbits i hi).2, fun _ => (hbits i hi).1⟩
    · have hlt : BANK_LOAD_ALL < 2 ^ i :=
        Nat.lt_of_lt_of_le (by decide : BANK_LOAD_ALL < 2 ^ 10)
          (Nat.pow_le_pow_right (by decide) (by omega))
      have hfalse : BANK_LOAD_ALL.testBit i = false := Nat.testBit_lt_two_pow hlt
      constructor
      · intro h
        rw [hfalse] at h
        exact Bool.noConfusion h
      · intro h
        exfalso
        have hb : ∀ f ∈ bank_load_flags, f < 2 ^ 10 := by decide
        have h1 := hb _ h
        rw [Nat.shiftLeft_eq, Nat.one_mul] at h1
        have h2 : 2 ^ 10 ≤ 2 ^ i := Nat.pow_le_pow_right (by decide) (by omega)
        omega

/-- The bitmap 0x0005 (congas and snare) is within `BANK_LOAD_ALL` and is the
OR of the two flags it selects. -/
theorem bank_load_flags_are_bits_witness :
    within_bank_load_all 0x0005 ∧ or_of_flags (selected_voices 0x0005) = 0x0005 :=
  ⟨by decide, bank_load_flags_are_bits.2.2.2.2.2.2.2.1 0x0005 (by decide)⟩

set_option maxRecDepth 100000 in
/-- Replacing the shuffle or the quantization field of a byte by a value 0..7
sets that field and keeps the other field and bits 7..6. -/
theorem put_field_independent : ∀ v : Nat, v < 256 → ∀ x : Nat, x < 8 →
    get_field (put_field v SHUFFLE_MASK SHUFFLE_SHIFT x) QUANTIZE_MASK QUANTIZE_SHIFT =
      get_field v QUANTIZE_MASK QUANTIZE_SHIFT ∧
    get_field (put_field v SHUFFLE_MASK SHUFFLE_SHIFT x) SHUFFLE_MASK SHUFFLE_SHIFT = x ∧
    get_field (put_field v QUANTIZE_MASK QUANTIZE_SHIFT x) SHUFFLE_MASK SHUFFLE_SHIFT =
      get_field v SHUFFLE_MASK SHUFFLE_SHIFT ∧
    get_field (put_field v QUANTIZE_MASK QUANTIZE_SHIFT x) QUANTIZE_MASK QUANTIZE_SHIFT = x ∧
    put_field v SHUFFLE_MASK SHUFFLE_SHIFT x &&& 0xc0 = v &&& 0xc0 ∧
    put_field v QUANTIZE_MASK QUANTIZE_SHIFT x &&& 0xc0 = v &&& 0xc0 := by
  decide

set_option maxRecDepth 100000 in
/-- Both decoded fields of a byte are values 0..7. -/
theorem get_field_lt_8 : ∀ v : Nat, v < 256 →
    get_field v QUANTIZE_MASK QUANTIZE_SHIFT < 8 ∧
    get_field v SHUFFLE_MASK SHUFFLE_SHIFT < 8 := by
  decide

/-- Claim C19: `QUANTIZE_MASK` is 7 << `QUANTIZE_SHIFT` (bits 5..3) and
`SHUFFLE_MASK` is 7 << `SHUFFLE_SHIFT` (bits 2..0); the masks are disjoint and
leave bits 7..6 free, and for every byte v the decoded fields
(v & MASK) >> SHIFT are values 0..7, independent of each other: replacing one
field leaves the other unchanged. -/
theorem quantize_shuffle_fields :
    QUANTIZE_MASK = 7 <<< QUANTIZE_SHIFT ∧ SHUFFLE_MASK = 7 <<< SHUFFLE_SHIFT ∧
    mask_bits QUANTIZE_MASK = [3, 4, 5] ∧ mask_bits SHUFFLE_MASK = [0, 1, 2] ∧
    QUANTIZE_MASK &&& SHUFFLE_MASK = 0 ∧
    (QUANTIZE_MASK ||| SHUFFLE_MASK) &&& 0xc0 = 0 ∧
    (∀ v : Nat, v < 2 ^ 8 →
      get_field v QUANTIZE_MASK QUANTIZE_SHIFT ≤ 7 ∧
      get_field v SHUFFLE_MASK SHUFFLE_SHIFT ≤ 7) ∧
    (∀ v x : Nat, v < 2 ^ 8 → x ≤ 7 →
      get_field (put_field v SHUFFLE_MASK SHUFFLE_SHIFT x) QUANTIZE_MASK QUANTIZE_SHIFT =
        get_field v QUANTIZE_MASK QUANTIZE_SHIFT ∧
      get_field (put_field v SHUFFLE_MASK SHUFFLE_SHIFT x) SHUFFLE_MASK SHUFFLE_SHIFT = x ∧
      get_field (put_field v QUANTIZE_MASK QUANTIZE_SHIFT x) SHUFFLE_MASK SHUFFLE_SHIFT =
        get_field v SHUFFLE_MASK SHUFFLE_SHIFT ∧
      get_field (put_field v QUANTIZE_MASK QUANTIZE_SHIFT x) QUANTIZE_MASK QUANTIZE_SHIFT = x ∧
      put_field v SHUFFLE_MASK SHUFFLE_SHIFT x &&& 0xc0 = v &&& 0xc0 ∧
      put_field v QUANTIZE_MASK QUANTIZE_SHIFT x &&& 0xc0 = v &&& 0xc0) := by
  refine ⟨by decide, by decide, by decide, by decide, by decide, by decide, ?_, ?_⟩
  · intro v hv
    have := get_field_lt_8 v hv
    omega
  · intro v x hv hx
    exact put_field_independent v hv x (by omega)

/-- The byte 0xad holds quantization field 5 and shuffle field 5; writing 2 into
the shuffle field leaves the quantization field at 5. -/
theorem quantize_shuffle_fields_witness :
    get_field (put_field 0xad SHUFFLE_MASK SHUFFLE_SHIFT 2) QUANTIZE_MASK QUANTIZE_SHIFT =
      get_field 0xad QUANTIZE_MASK QUANTIZE_SHIFT ∧
    get_field (put_field 0xad SHUFFLE_MASK SHUFFLE_SHIFT 2) SHUFFLE_MASK SHUFFLE_SHIFT = 2 :=
  ⟨(quantize_shuffle_fields.2.2.2.2.2.2.2 0xad 2 (by decide) (by decide)).1,
   (quantize_shuffle_fields.2.2.2.2.2.2.2 0xad 2 (by decide) (by decide)).2.1⟩

set_option maxRecDepth 100000 in
/-- Setting or clearing one flag of `LED_SET_2` in a byte changes that bit and
no other. -/
theorem led_set_2_flag_frame : ∀ v : Nat, v < 256 → ∀ f ∈ led_set_2_flags,
    set_LED_SET_2 v f &&& f = f ∧ other_bits (set_LED_SET_2 v f) f = other_bits v f ∧
    clr_LED_SET_2 v f &&& f = 0 ∧ other_bits (clr_LED_SET_2 v f) f = other_bits v f := by
  decide

set_option maxRecDepth 100000 in
/-- Setting or clearing one flag of `INPUT_JACKS` in a byte changes that bit
and no other. -/
theorem input_jacks_flag_frame : ∀ v : Nat, v < 256 → ∀ f ∈ input_jacks_flags,
    set_flag v f &&& f = f ∧ other_bits (set_flag v f) f = other_bits v f ∧
    clr_flag v f &&& f = 0 ∧ other_bits (clr_flag v f) f = other_bits v f := by
  decide

/-- Claim C20: in each of the registers `LED_SET_2` and `INPUT_JACKS` the eight
named flags are eight pairwise distinct single-bit masks whose OR is 0xff, so
every bit of the register has exactly one meaning, and setting or clearing one
flag in a byte leaves the other seven bits unchanged; the aliases agree
(LED_A = LED_STORE, LED_B = LED_VERIFY, LED_C = LED_LOAD). -/
theorem register_flags_are_bits :
    led_set_2_flags = (List.range 8).map (fun i => 1 <<< i) ∧
    input_jacks_flags = (List.range 8).map (fun i => 1 <<< i) ∧
    led_set_2_flags.length = 8 ∧ input_jacks_flags.length = 8 ∧
    led_set_2_flags.Nodup ∧ input_jacks_flags.Nodup ∧
    (∀ f ∈ led_set_2_flags, ∃ i, i < 8 ∧ f = 1 <<< i) ∧
    (∀ f ∈ input_jacks_flags, ∃ i, i < 8 ∧ f = 1 <<< i) ∧
    or_of_flags led_set_2_flags = 0xff ∧ or_of_flags input_jacks_flags = 0xff ∧
    (∀ i : Nat, i < 8 →
      (led_set_2_flags.filter (fun f => f.testBit i)).length = 1 ∧
      (input_jacks_flags.filter (fun f => f.testBit i)).length = 1) ∧
    (∀ v f : Nat, v < 2 ^ 8 → f ∈ led_set_2_flags →
      set_LED_SET_2 v f &&& f = f ∧ other_bits (set_LED_SET_2 v f) f = other_bits v f ∧
      clr_LED_SET_2 v f &&& f = 0 ∧ other_bits (clr_LED_SET_2 v f) f = other_bits v f) ∧
    (∀ v f : Nat, v < 2 ^ 8 → f ∈ input_jacks_flags →
      set_flag v f &&& f = f ∧ other_bits (set_flag v f) f = other_bits v f ∧
      clr_flag v f &&& f = 0 ∧ other_bits (clr_flag v f) f = other_bits v f) ∧
    LED_A = LED_STORE ∧ LED_B = LED_VERIFY ∧ LED_C = LED_LOAD := by
  refine ⟨by decide, by decide, rfl, rfl, by decide, by decide, by decide, by decide,
    by decide, by decide, by decide, ?_, ?_, rfl, rfl, rfl⟩
  · intro v f hv hf
    exact led_set_2_flag_frame v hv f hf
  · intro v f hv hf
    exact input_jacks_flag_frame v hv f hf

/-- Setting `DRUM_DO_ENABLE` in the byte 0x15 gives a byte with bit 7 set and
the other seven bits as they were. -/
theorem register_flags_are_bits_witness :
    set_LED_SET_2 0x15 DRUM_DO_ENABLE &&& DRUM_DO_ENABLE = DRUM_DO_ENABLE ∧
    other_bits (set_LED_SET_2 0x15 DRUM_DO_ENABLE) DRUM_DO_ENABLE =
      other_bits 0x15 DRUM_DO_ENABLE :=
  ⟨(register_flags_are_bits.2.2.2.2.2.2.2.2.2.2.2.1 0x15 DRUM_DO_ENABLE
      (by decide) (by decide)).1,
   (register_flags_are_bits.2.2.2.2.2.2.2.2.2.2.2.1 0x15 DRUM_DO_ENABLE
      (by decide) (by decide)).2.1⟩

/-! ### Named addresses on the address pins -/

/-- Claim C21: all named bus addresses (the sixteen registers 0xd800..0xd80f,
the six keyboard row selects 0xdc01, 0xdc02, 0xdc04, 0xdc08, 0xdc10, 0xdc20 and
the D802 shadow location 0xa016) remain pairwise distinct when reduced to the
14 address lines `ADDR_0` .. `ADDR_13` that have pins (address mod 2^14), so no
two named locations alias on the address bus the Teensy can drive. -/
theorem named_addresses_distinct_on_pins :
    addr_pins.length = 14 ∧
    addr_pins.Nodup ∧
    (∀ a : Nat, addr_on_pins a = a % 2 ^ 14) ∧
    named_bus_addresses.length = 23 ∧
    named_bus_addresses.Nodup ∧
    (∀ a : Nat, a ∈ named_bus_addresses ↔
      (0xd800 ≤ a ∧ a ≤ 0xd80f) ∨ a ∈ [0xdc01, 0xdc02, 0xdc04, 0xdc08, 0xdc10, 0xdc20] ∨
        a = 0xa016) ∧
    named_bus_addresses.map addr_on_pins =
      [0x1800, 0x1801, 0x1802, 0x180f, 0x1803, 0x1804, 0x1805, 0x1806, 0x1807, 0x1808,
       0x1809, 0x180a, 0x180b, 0x180c, 0x180d, 0x180e,
       0x1c01, 0x1c02, 0x1c04, 0x1c08, 0x1c10, 0x1c20, 0x2016] ∧
    (named_bus_addresses.map addr_on_pins).Nodup ∧
    (∀ a ∈ named_bus_addresses, ∀ b ∈ named_bus_addresses,
      addr_on_pins a = addr_on_pins b → a = b) ∧
    (∀ a ∈ named_bus_addresses, ∀ b ∈ named_bus_addresses,
      addr_pin_levels a = addr_pin_levels b → a = b) := by
  have hperm : host_register_map.Perm (List.range' 0xd800 16) := by decide
  refine ⟨rfl, by decide, fun _ => rfl, rfl, by decide, ?_, by decide, by decide,
    by decide, by decide⟩
  intro a
  have hkb : kb_row_selects = [0xdc01, 0xdc02, 0xdc04, 0xdc08, 0xdc10, 0xdc20] := by decide
  have hsh : D802_SHADOW = 0xa016 := rfl
  unfold named_bus_addresses
  rw [List.mem_append, List.mem_append, hperm.mem_iff, List.mem_range'_1, hkb, hsh,
    List.mem_singleton, or_assoc]
  constructor
  · rintro (h | h | h)
    · exact Or.inl ⟨h.1, by omega⟩
    · exact Or.inr (Or.inl h)
    · exact Or.inr (Or.inr h)
  · rintro (h | h | h)
    · exact Or.inl ⟨h.1, by omega⟩
    · exact Or.inr (Or.inl h)
    · exact Or.inr (Or.inr h)

/-- The register `LED_SET_2` (0xd802) and its RAM shadow (0xa016) differ on the
address pins: 0x1802 against 0x2016. -/
theorem named_addresses_distinct_on_pins_witness :
    addr_on_pins LED_SET_2 ≠ addr_on_pins D802_SHADOW :=
  fun h => absurd
    (named_addresses_distinct_on_pins.2.2.2.2.2.2.2.2.1 LED_SET_2 (by decide)
      D802_SHADOW (by decide) h)
    (by decide)

end Luma1
